import Mathlib

/-!
# Deck storage engine of the quiz program

A shallow embedding of `cmd/db.go` (and of the older copy `src/db.go` where the
two differ): the quiz kinds, the deck file naming, the option codec and the
row operations, followed by the properties proved about them.

Go strings are byte sequences, so they are modelled as lists of bytes; slicing
`n[:4]` and splitting on `","` act on those bytes.  Calls that leave the
program (the file system and `database/sql`) are answered by a `Driver`, a
record of functions over an engine state; every such call is appended to a log.
-/

set_option autoImplicit false

namespace QuizDeck

/-! ## Go strings -/

/-- One byte of a Go string. -/
abbrev Byte := Fin 256

/-- A Go `string`: an immutable sequence of bytes. -/
abbrev GoString := List Byte

/-- UTF-8 encoding of one code point, the encoding Go uses for string literals. -/
def utf8 (c : Nat) : List Byte :=
  if c < 128 then [Fin.ofNat c]
  else if c < 2048 then [Fin.ofNat (192 + c / 64), Fin.ofNat (128 + c % 64)]
  else if c < 65536 then
    [Fin.ofNat (224 + c / 4096), Fin.ofNat (128 + (c / 64) % 64), Fin.ofNat (128 + c % 64)]
  else
    [Fin.ofNat (240 + c / 262144), Fin.ofNat (128 + (c / 4096) % 64),
     Fin.ofNat (128 + (c / 64) % 64), Fin.ofNat (128 + c % 64)]

/-- The bytes of a Go string literal. -/
def str (s : String) : GoString := s.data.flatMap (fun c => utf8 c.toNat)

/-- The byte `','`, the only separator the program passes to `strings.Split`
and `strings.Join`. -/
def comma : Byte := 44

/-- Go `strings.IndexByte(s, c)`: the position of the first `c` in `s`;
`none` stands for `-1`. -/
def indexByte : GoString → Byte → Option Nat
  | [], _ => none
  | b :: bs, c => if b = c then some 0 else (indexByte bs c).map (· + 1)

/-- Go `strings.Count(s, sep)` for a one-byte separator. -/
def countByte : GoString → Byte → Nat
  | [], _ => 0
  | b :: bs, c => (if b = c then 1 else 0) + countByte bs c

/-- The loop of Go `strings.genSplit` for a one-byte separator: at most `n`
times, cut `s` at the first separator (`a[i] = s[:m]; s = s[m+1:]`) and stop
early when none is left; the remainder is the last field. -/
def genSplit (sep : Byte) : Nat → GoString → List GoString
  | 0, s => [s]
  | n + 1, s =>
    match indexByte s sep with
    | none => [s]
    | some m => s.take m :: genSplit sep n (s.drop (m + 1))

/-- Go `strings.Split(s, sep)` for a one-byte separator `sep`: `genSplit` run
`strings.Count(s, sep)` times (`n = Count(s, sep) + 1` fields). -/
def stringsSplit (s : GoString) (sep : Byte) : List GoString :=
  genSplit sep (countByte s sep) s

/-- Go `strings.Join(elems, sep)`: `""` for no element, the element itself for
one, and otherwise the first element followed by `sep` and the next element, in
turn, for the others. -/
def stringsJoin (elems : List GoString) (sep : GoString) : GoString :=
  match elems with
  | [] => []
  | [e] => e
  | e :: rest => rest.foldl (fun b s => b ++ sep ++ s) e

/-- Go slice expression `s[:k]`: the first `k` bytes; `none` stands for the
run-time panic "slice bounds out of range" raised when `k > len(s)`. -/
def sliceTo (s : GoString) (k : Nat) : Option GoString :=
  if k ≤ s.length then some (s.take k) else none

/-! ## Data model (`main.go`, `db.go`) -/

/-- Source `type Quiz int64`. -/
structure Quiz where
  val : Int
  deriving DecidableEq, Repr

/-- Source `Undefined Quiz = iota`. -/
def Undefined : Quiz := ⟨0⟩

/-- Source constant `Card`. -/
def Card : Quiz := ⟨1⟩

/-- Source constant `MCQ`. -/
def MCQ : Quiz := ⟨2⟩

/-- Source `func (q Quiz) String() string`. -/
def Quiz.String (q : Quiz) : GoString :=
  if q = Card then str "CRD"
  else if q = MCQ then str "MCQ"
  else str "Unknown"

/-- Source `type BaseItem struct { id int }`. -/
structure BaseItem where
  id : Int
  deriving DecidableEq, Repr

/-- Source `type CardItem struct`; the embedded `ItemInterface` field is never
set and is left out. -/
structure CardItem extends BaseItem where
  Question : GoString
  Answer : GoString
  deriving DecidableEq, Repr

/-- Source `type MCQItem struct`; a nil `Options` slice is the empty list. -/
structure MCQItem extends BaseItem where
  Question : GoString
  Options : List GoString
  Answer : GoString
  deriving DecidableEq, Repr

/-- The zero value `CardItem{}`. -/
def CardItem.zero : CardItem := { id := 0, Question := [], Answer := [] }

/-- The zero value `MCQItem{}`. -/
def MCQItem.zero : MCQItem := { id := 0, Question := [], Options := [], Answer := [] }

/-- A value stored in a `[]ItemInterface`: the program only ever stores a
`CardItem` or an `MCQItem`. -/
inductive Item where
  | card (c : CardItem)
  | mcq (m : MCQItem)
  deriving DecidableEq, Repr

/-! ## Errors -/

/-- A Go `error` value. -/
inductive GoError where
  /-- The value `errors.New(msg)`, told apart by its message. -/
  | errorsNew (msg : GoString)
  /-- The sentinel `sql.ErrNoRows`. -/
  | sqlErrNoRows
  /-- Any other error value handed back by `database/sql` or the driver. -/
  | engine (code : Nat)
  deriving DecidableEq, Repr

/-- The error of `os.Stat`, as far as `os.IsExist` tells errors apart. -/
inductive OsError where
  /-- The path does not exist (`ENOENT`). -/
  | notExist
  /-- The errors `os.IsExist` accepts (`EEXIST`, `ENOTEMPTY`). -/
  | exist
  /-- Any other failure, such as a missing permission. -/
  | other (code : Nat)
  deriving DecidableEq, Repr

/-- Go `os.IsExist(err)`: true only for an error that reports that a file
already exists; false for every other error and for `nil`. -/
def osIsExist : Option OsError → Bool
  | some OsError.exist => true
  | _ => false

/-- The outcome of a Go call that may panic. -/
inductive Outcome (α : Type) where
  | returned (a : α)
  | panicked
  deriving DecidableEq, Repr

/-! ## The outside world: file system and `database/sql` -/

/-- An open `*sql.DB`. -/
abbrev Handle := Nat

/-- An argument bound to a `?` of a prepared statement. -/
inductive Value where
  | int (i : Int)
  | text (s : GoString)
  deriving DecidableEq, Repr

/-- What `result.RowsAffected()` returns: a count and an error. -/
structure SqlResult where
  rowsAffected : Int
  rowsAffectedErr : Option GoError
  deriving DecidableEq, Repr

/-- One row as `Scan` sees it: the values `Scan` leaves in the destinations for
the row id, the question, the options text (unused by a card scan) and the
answer, and the error `Scan` returns.  When `err` is set the fields hold
whatever was written before the failure. -/
structure Row where
  id : Int
  question : GoString
  options : GoString
  answer : GoString
  err : Option GoError
  deriving DecidableEq, Repr

/-- The answers of the file system and of `database/sql`, over an engine state
`σ`.  SQL text is only passed through and kept as a Lean string. -/
structure Driver (σ : Type) where
  /-- The global `ROOT`. -/
  root : GoString
  /-- Go `filepath.Join(a, b)`. -/
  filepathJoin : GoString → GoString → GoString
  /-- The error of `os.Stat(path)`; `none` is `nil`: the file is there. -/
  osStat : GoString → σ → Option OsError
  /-- Go `sql.Open("sqlite", file)`: the handle or the error.  `sql.Open` makes no
  connection; the file is first opened by a statement run on the handle. -/
  sqlOpen : GoString → σ → Except GoError Handle × σ
  /-- The error of `db.Exec(sql)`. -/
  dbExec : Handle → String → σ → Option GoError × σ
  /-- Go `db.Close()`. -/
  dbClose : Handle → σ → σ
  /-- Go `db.Query(sql)`: the rows that `rows.Next()` then delivers. -/
  dbQuery : Handle → String → σ → Except GoError (List Row) × σ
  /-- The error of `db.Prepare(sql)`. -/
  dbPrepare : Handle → String → σ → Option GoError × σ
  /-- Go `statement.Exec(args...)`. -/
  stmtExec : Handle → String → List Value → σ → Except GoError SqlResult × σ
  /-- Go `statement.QueryRow(args...)` followed by `row.Scan(...)`. -/
  stmtQueryRow : Handle → String → List Value → σ → Row × σ
  /-- Go `statement.Close()`. -/
  stmtClose : Handle → String → σ → σ

/-- A call that left the program. -/
inductive Call where
  | osStat (path : GoString)
  | printlnString (s : GoString)
  | printlnError (e : GoError)
  | sqlOpen (file : GoString)
  | dbExec (db : Handle) (sql : String)
  | dbClose (db : Handle)
  | dbQuery (db : Handle) (sql : String)
  | dbPrepare (db : Handle) (sql : String)
  | stmtExec (db : Handle) (sql : String) (args : List Value)
  | stmtQueryRow (db : Handle) (sql : String) (args : List Value)
  | stmtClose (db : Handle) (sql : String)
  deriving DecidableEq, Repr

/-- The calls that make `database/sql` connect, that is, open the database
file (and create it when it is missing): the calls that run or prepare a
statement.  `sql.Open` only checks its arguments and hands back a handle, and
`db.Close` on a handle that never connected has no file to close. -/
def Call.connects : Call → Bool
  | Call.dbExec _ _ => true
  | Call.dbQuery _ _ => true
  | Call.dbPrepare _ _ => true
  | Call.stmtExec _ _ _ => true
  | Call.stmtQueryRow _ _ _ => true
  | _ => false

/-- The engine state together with the calls made so far, oldest first. -/
structure World (σ : Type) where
  st : σ
  log : List Call

section Calls

variable {σ : Type}

/-- Call `os.Stat`. -/
def World.osStat (w : World σ) (d : Driver σ) (path : GoString) : Option OsError × World σ :=
  (d.osStat path w.st, ⟨w.st, w.log ++ [Call.osStat path]⟩)

/-- Call `fmt.Println` on a string. -/
def World.printlnString (w : World σ) (s : GoString) : World σ :=
  ⟨w.st, w.log ++ [Call.printlnString s]⟩

/-- Call `fmt.Println` on an error. -/
def World.printlnError (w : World σ) (e : GoError) : World σ :=
  ⟨w.st, w.log ++ [Call.printlnError e]⟩

/-- Call `sql.Open`. -/
def World.sqlOpen (w : World σ) (d : Driver σ) (file : GoString) :
    Except GoError Handle × World σ :=
  ((d.sqlOpen file w.st).1, ⟨(d.sqlOpen file w.st).2, w.log ++ [Call.sqlOpen file]⟩)

/-- Call `db.Exec`. -/
def World.dbExec (w : World σ) (d : Driver σ) (db : Handle) (sql : String) :
    Option GoError × World σ :=
  ((d.dbExec db sql w.st).1, ⟨(d.dbExec db sql w.st).2, w.log ++ [Call.dbExec db sql]⟩)

/-- Call `db.Close`. -/
def World.dbClose (w : World σ) (d : Driver σ) (db : Handle) : World σ :=
  ⟨d.dbClose db w.st, w.log ++ [Call.dbClose db]⟩

/-- Call `db.Query`. -/
def World.dbQuery (w : World σ) (d : Driver σ) (db : Handle) (sql : String) :
    Except GoError (List Row) × World σ :=
  ((d.dbQuery db sql w.st).1, ⟨(d.dbQuery db sql w.st).2, w.log ++ [Call.dbQuery db sql]⟩)

/-- Call `db.Prepare`. -/
def World.dbPrepare (w : World σ) (d : Driver σ) (db : Handle) (sql : String) :
    Option GoError × World σ :=
  ((d.dbPrepare db sql w.st).1, ⟨(d.dbPrepare db sql w.st).2, w.log ++ [Call.dbPrepare db sql]⟩)

/-- Call `statement.Exec`. -/
def World.stmtExec (w : World σ) (d : Driver σ) (db : Handle) (sql : String)
    (args : List Value) : Except GoError SqlResult × World σ :=
  ((d.stmtExec db sql args w.st).1,
   ⟨(d.stmtExec db sql args w.st).2, w.log ++ [Call.stmtExec db sql args]⟩)

/-- Call `statement.QueryRow` and scan its row. -/
def World.stmtQueryRow (w : World σ) (d : Driver σ) (db : Handle) (sql : String)
    (args : List Value) : Row × World σ :=
  ((d.stmtQueryRow db sql args w.st).1,
   ⟨(d.stmtQueryRow db sql args w.st).2, w.log ++ [Call.stmtQueryRow db sql args]⟩)

/-- Call `statement.Close`. -/
def World.stmtClose (w : World σ) (d : Driver σ) (db : Handle) (sql : String) : World σ :=
  ⟨d.stmtClose db sql w.st, w.log ++ [Call.stmtClose db sql]⟩

end Calls

/-! ## The program: `cmd/db.go` -/

section Program

variable {σ : Type}

/-- The file name `createDeck` builds for deck `n` of kind `t`:
`t.String()+"_" + n + ".db"`. -/
def deckFileName (n : GoString) (t : Quiz) : GoString :=
  t.String ++ str "_" ++ n ++ str ".db"

/-- Source `createDeck` (`cmd/db.go`). -/
def createDeck (d : Driver σ) (n : GoString) (t : Quiz) (w : World σ) :
    Option GoError × World σ :=
  let dbName := d.filepathJoin d.root (deckFileName n t)
  let st := w.osStat d dbName
  if osIsExist st.1 then
    (some (GoError.errorsNew (str "Quiz already exists")), st.2)
  else
    let w1 := st.2.printlnString dbName
    match w1.sqlOpen d dbName with
    | (Except.error err, w2) => (some err, w2.printlnError err)
    | (Except.ok db, w2) =>
      let w3 :=
        if t = MCQ then
          (w2.dbExec d db
            "CREATE TABLE cards (question TEXT not null, options TEXT not null, answer TEXT not null);").2
        else if t = Card then
          (w2.dbExec d db
            "CREATE TABLE cards (question TEXT not null, answer TEXT not null);").2
        else w2
      (none, w3.dbClose d db)

/-- Source `createDeck` of the older copy `src/db.go`: the path is built with
`ROOT + "/" + ...`, the tables declare an `id` column, nothing is printed and
`db.Close()` is deferred. -/
def createDeckOld (d : Driver σ) (n : GoString) (t : Quiz) (w : World σ) :
    Option GoError × World σ :=
  let dbName := d.root ++ str "/" ++ t.String ++ str "_" ++ n ++ str ".db"
  let st := w.osStat d dbName
  if osIsExist st.1 then
    (some (GoError.errorsNew (str "Quiz already exists")), st.2)
  else
    match st.2.sqlOpen d dbName with
    | (Except.error err, w2) => (some err, w2)
    | (Except.ok db, w2) =>
      let w3 :=
        if t = MCQ then
          (w2.dbExec d db
            "CREATE TABLE cards (id INT primary key, question TEXT not null, options TEXT not null, answer TEXT not null);").2
        else if t = Card then
          (w2.dbExec d db
            "CREATE TABLE cards (id INT primary key, question TEXT not null, answer TEXT not null);").2
        else w2
      (none, w3.dbClose d db)

/-- Source `openDeck`: the handle (`none` is `nil`), the kind and the error. -/
def openDeck (d : Driver σ) (n : GoString) (w : World σ) :
    Outcome (Option Handle × Quiz × Option GoError) × World σ :=
  match sliceTo n 4 with
  | none => (Outcome.panicked, w)
  | some n4 =>
    if n4 ≠ str "CRD_" ∧ n4 ≠ str "MCQ_" then
      (Outcome.returned (none, Undefined,
        some (GoError.errorsNew (str "Invalid Database Type! Must be MCQ or CRD"))), w)
    else
      match sliceTo n 3 with
      | none => (Outcome.panicked, w)
      | some n3 =>
        let q := if n3 = str "CRD" then Card else MCQ
        let file := d.root ++ str "/" ++ n
        match w.sqlOpen d file with
        | (Except.error err, w1) => (Outcome.returned (none, Undefined, some err), w1)
        | (Except.ok db, w1) =>
          match w1.dbExec d db "Select * from cards" with
          | (some err, w2) =>
            (Outcome.returned (none, Undefined,
              some (GoError.errorsNew (str "Illegal Database: " ++ file))),
             (w2.dbClose d db).printlnError err)
          | (none, w2) => (Outcome.returned (some db, q, none), w2)

/-- The `for rows.Next()` loop of `parseDeck` for `Card`: scan each row into a
`CardItem`, append it to `deck` and count it; a scan error ends the call. -/
def scanCards : List Row → List Item × Nat → Except GoError (List Item × Nat)
  | [], acc => Except.ok acc
  | r :: rs, (deck, count) =>
    match r.err with
    | some err => Except.error err
    | none =>
      scanCards rs
        (deck ++ [Item.card { id := r.id, Question := r.question, Answer := r.answer }],
         count + 1)

/-- The `for rows.Next()` loop of `parseDeck` for `MCQ`: as `scanCards`, with
the options text split on `","`. -/
def scanMCQs : List Row → List Item × Nat → Except GoError (List Item × Nat)
  | [], acc => Except.ok acc
  | r :: rs, (deck, count) =>
    match r.err with
    | some err => Except.error err
    | none =>
      scanMCQs rs
        (deck ++ [Item.mcq { id := r.id, Question := r.question,
                             Options := stringsSplit r.options comma, Answer := r.answer }],
         count + 1)

/-- The end of `parseDeck`: `if count < 1 { return deck, sql.ErrNoRows }`. -/
def parseDeckEnd (acc : List Item × Nat) : List Item × Option GoError :=
  if acc.2 < 1 then (acc.1, some GoError.sqlErrNoRows) else (acc.1, none)

/-- Source `parseDeck`: the deck (a nil slice is `[]`) and the error. -/
def parseDeck (d : Driver σ) (db : Handle) (q : Quiz) (w : World σ) :
    (List Item × Option GoError) × World σ :=
  if q = Card then
    match w.dbQuery d db "select rowid, question, answer from cards" with
    | (Except.error err, w1) => (([], some err), w1)
    | (Except.ok rows, w1) =>
      match scanCards rows ([], 0) with
      | Except.error err => (([], some err), w1)
      | Except.ok acc => (parseDeckEnd acc, w1)
  else if q = MCQ then
    match w.dbQuery d db "select rowid, question, options, answer from cards" with
    | (Except.error err, w1) => (([], some err), w1)
    | (Except.ok rows, w1) =>
      match scanMCQs rows ([], 0) with
      | Except.error err => (([], some err), w1)
      | Except.ok acc => (parseDeckEnd acc, w1)
  else (parseDeckEnd ([], 0), w)

/-- Source `insertCard`. -/
def insertCard (d : Driver σ) (n : CardItem) (db : Handle) (w : World σ) :
    Option GoError × World σ :=
  match w.dbPrepare d db "insert into cards (question, answer) values (?,?)" with
  | (some err, w1) => (some err, w1)
  | (none, w1) =>
    match w1.stmtExec d db "insert into cards (question, answer) values (?,?)"
        [Value.text n.Question, Value.text n.Answer] with
    | (Except.error _, w2) =>
      (some (GoError.errorsNew (str "Error in preparing statement")), w2)
    | (Except.ok _, w2) => (none, w2)

/-- Source `insertMCQ`. -/
def insertMCQ (d : Driver σ) (n : MCQItem) (db : Handle) (w : World σ) :
    Option GoError × World σ :=
  match w.dbPrepare d db "insert into cards (question, answer, options) values (?,?,?)" with
  | (some _, w1) => (some (GoError.errorsNew (str "Error in preparing statement")), w1)
  | (none, w1) =>
    match w1.stmtExec d db "insert into cards (question, answer, options) values (?,?,?)"
        [Value.text n.Question, Value.text n.Answer,
         Value.text (stringsJoin n.Options [comma])] with
    | (Except.error _, w2) =>
      (some (GoError.errorsNew (str "Error in preparing statement")), w2)
    | (Except.ok _, w2) => (none, w2)

/-- Source `retrieveCard`. -/
def retrieveCard (d : Driver σ) (id : Int) (db : Handle) (w : World σ) :
    (CardItem × Option GoError) × World σ :=
  match w.dbPrepare d db "select * from cards where rowid=?" with
  | (some _, w1) =>
    ((CardItem.zero, some (GoError.errorsNew (str "Error preparing statement"))), w1)
  | (none, w1) =>
    let q := w1.stmtQueryRow d db "select * from cards where rowid=?" [Value.int id]
    let c : CardItem := { id := q.1.id, Question := q.1.question, Answer := q.1.answer }
    let w2 := q.2.stmtClose d db "select * from cards where rowid=?"
    match q.1.err with
    | some err =>
      if err = GoError.sqlErrNoRows then
        ((CardItem.zero, some (GoError.errorsNew (str "Card not found"))), w2)
      else ((CardItem.zero, some err), w2)
    | none => ((c, none), w2)

/-- Source `retrieveMCQ`. -/
def retrieveMCQ (d : Driver σ) (id : Int) (db : Handle) (w : World σ) :
    (MCQItem × Option GoError) × World σ :=
  match w.dbPrepare d db "select * from cards where rowid=?" with
  | (some _, w1) =>
    ((MCQItem.zero, some (GoError.errorsNew (str "Error preparing statement"))), w1)
  | (none, w1) =>
    let q := w1.stmtQueryRow d db "select * from cards where rowid=?" [Value.int id]
    let w2 := q.2.stmtClose d db "select * from cards where rowid=?"
    match q.1.err with
    | some err =>
      if err = GoError.sqlErrNoRows then
        ((MCQItem.zero, some (GoError.errorsNew (str "Card not found"))), w2)
      else ((MCQItem.zero, some err), w2)
    | none =>
      (({ id := q.1.id, Question := q.1.question,
          Options := stringsSplit q.1.options comma, Answer := q.1.answer }, none), w2)

/-- Source `updateCard`. -/
def updateCard (d : Driver σ) (c : CardItem) (db : Handle) (w : World σ) :
    Option GoError × World σ :=
  match w.dbPrepare d db "update cards set question=?, answer=? where rowid = ?" with
  | (some _, w1) => (some (GoError.errorsNew (str "Error preparing statement")), w1)
  | (none, w1) =>
    let r := w1.stmtExec d db "update cards set question=?, answer=? where rowid = ?"
      [Value.text c.Question, Value.text c.Answer, Value.int c.id]
    let w2 := r.2.stmtClose d db "update cards set question=?, answer=? where rowid = ?"
    match r.1 with
    | Except.error err => (some err, w2)
    | Except.ok result =>
      if result.rowsAffected = 0 then (some (GoError.errorsNew (str "Card not found")), w2)
      else (none, w2)

/-- Source `updateMCQ`. -/
def updateMCQ (d : Driver σ) (c : MCQItem) (db : Handle) (w : World σ) :
    Option GoError × World σ :=
  match w.dbPrepare d db "update cards set question=?, answer=?, options=? where rowid = ?" with
  | (some _, w1) => (some (GoError.errorsNew (str "Error preparing statement")), w1)
  | (none, w1) =>
    let r := w1.stmtExec d db
      "update cards set question=?, answer=?, options=? where rowid = ?"
      [Value.text c.Question, Value.text c.Answer,
       Value.text (stringsJoin c.Options [comma]), Value.int c.id]
    let w2 := r.2.stmtClose d db
      "update cards set question=?, answer=?, options=? where rowid = ?"
    match r.1 with
    | Except.error err => (some err, w2)
    | Except.ok result =>
      if result.rowsAffected = 0 then (some (GoError.errorsNew (str "Card not found")), w2)
      else (none, w2)

/-- Source `deleteItem`. -/
def deleteItem (d : Driver σ) (id : Int) (db : Handle) (w : World σ) :
    Option GoError × World σ :=
  match w.dbPrepare d db "delete from cards where rowid=?" with
  | (some _, w1) => (some (GoError.errorsNew (str "Error preparing statement")), w1)
  | (none, w1) =>
    let r := w1.stmtExec d db "delete from cards where rowid=?" [Value.int id]
    let w2 := r.2.stmtClose d db "delete from cards where rowid=?"
    match r.1 with
    | Except.error err => (some err, w2)
    | Except.ok result =>
      if result.rowsAffected = 0 then (some (GoError.errorsNew (str "Card not found")), w2)
      else (none, w2)

end Program

/-! ## Engines used to run the program -/

/-- A scripted engine in the manner of the tests' sqlmock: every call gets the
answer written in the script; the engine keeps no state. -/
structure Script where
  /-- The paths for which `os.Stat` succeeds. -/
  existing : List GoString
  openResult : Except GoError Handle
  dbExecErr : Option GoError
  queryResult : Except GoError (List Row)
  prepareErr : Option GoError
  execResult : Except GoError SqlResult
  row : Row

/-- The driver that plays a script.  `ROOT` is `/home/u/.quiz` and
`filepath.Join` puts a `/` between its two arguments, as it does for a clean
directory and a plain file name. -/
def Script.driver (s : Script) : Driver Unit where
  root := str "/home/u/.quiz"
  filepathJoin := fun a b => a ++ str "/" ++ b
  osStat := fun path _ => if path ∈ s.existing then none else some OsError.notExist
  sqlOpen := fun _ u => (s.openResult, u)
  dbExec := fun _ _ u => (s.dbExecErr, u)
  dbClose := fun _ u => u
  dbQuery := fun _ _ u => (s.queryResult, u)
  dbPrepare := fun _ _ u => (s.prepareErr, u)
  stmtExec := fun _ _ _ u => (s.execResult, u)
  stmtQueryRow := fun _ _ _ u => (s.row, u)
  stmtClose := fun _ _ u => u

/-- A script in which every call succeeds, nothing exists on disk and no row
is found. -/
def Script.quiet : Script where
  existing := []
  openResult := Except.ok 1
  dbExecErr := none
  queryResult := Except.ok []
  prepareErr := none
  execResult := Except.ok { rowsAffected := 1, rowsAffectedErr := none }
  row := { id := 0, question := [], options := [], answer := [],
           err := some GoError.sqlErrNoRows }

/-- The quiet script with the card deck "questions" of `main.go` already on
disk. -/
def Script.deckOnDisk : Script :=
  { Script.quiet with existing := [str "/home/u/.quiz/CRD_questions.db"] }

/-- The card rows of `TestParseDeck`. -/
def Script.cardRows : List Row :=
  [{ id := 0, question := str "What is the capital of France?", options := [],
     answer := str "Paris", err := none },
   { id := 1, question := str "What is the tallest mountain in the world?", options := [],
     answer := str "Mount Everest", err := none }]

/-- The MCQ rows of `TestParseDeck`. -/
def Script.mcqRows : List Row :=
  [{ id := 0, question := str "What is the capital of France?",
     options := str "Paris,London,Berlin,Rome", answer := str "Paris", err := none },
   { id := 1, question := str "What is the tallest mountain in the world?",
     options := str "Mount Kilimanjaro,Mount Everest,K2,Mont Blanc",
     answer := str "Mount Everest", err := none }]

/-- The quiet script whose query delivers the given rows. -/
def Script.withRows (rows : List Row) : Script :=
  { Script.quiet with queryResult := Except.ok rows }

/-- The quiet script whose executed statement reports `k` affected rows. -/
def Script.affecting (k : Int) : Script :=
  { Script.quiet with execResult := Except.ok { rowsAffected := k, rowsAffectedErr := none } }

/-- The quiet script whose single-row scan fails with an engine error after
the id and the question have been written. -/
def Script.brokenScan : Script :=
  { Script.quiet with
    row := { id := 5, question := str "What is", options := [], answer := [],
             err := some (GoError.engine 7) } }

/-- The card that `TestUpdateCard` updates at the missing id 999. -/
def Script.card999 : CardItem :=
  { id := 999, Question := str "Lorem ipsum", Answer := str "Dolor sit amet" }

/-- The MCQ that `TestUpdateMCQ` updates at the missing id 999. -/
def Script.mcq999 : MCQItem :=
  { id := 999, Question := str "Lorem ipsum", Options := [str "one", str "two", str "three"],
    Answer := str "Dolor sit amet" }

/-- The quiet script whose `Prepare` fails with an engine error. -/
def Script.prepareFailing : Script :=
  { Script.quiet with prepareErr := some (GoError.engine 3) }

/-- The quiet script whose single-row lookup finds the MCQ row of
`TestRetrieveMCQ`. -/
def Script.foundMCQ : Script :=
  { Script.quiet with
    row := { id := 0, question := str "What is the capital of France?",
             options := str "Paris,Berlin,London,Rome", answer := str "Paris", err := none } }

/-- The card that `TestInsertCard` inserts. -/
def Script.parisCard : CardItem :=
  { id := 0, Question := str "What is the capital of France?", Answer := str "Paris" }

/-- The world before the first call of a scripted run. -/
def start : World Unit := { st := (), log := [] }

/-- A row of the table `cards` as the engine stores it, with its `rowid`. -/
structure StoredRow where
  rowid : Int
  question : GoString
  options : GoString
  answer : GoString
  deriving DecidableEq, Repr

/-- The table `cards` of one deck. -/
abbrev Table := List StoredRow

/-- The SQL statement `delete from cards where rowid=?` bound to `id`: the rows
whose `rowid` is `id` are removed, and their number is reported as the rows
affected. -/
def sqlDelete (id : Int) (t : Table) : SqlResult × Table :=
  ({ rowsAffected := ((t.filter (fun r => r.rowid = id)).length : Int),
     rowsAffectedErr := none },
   t.filter (fun r => r.rowid ≠ id))

/-- A reference engine whose state is the table `cards`: it prepares every
statement and executes `delete from cards where rowid=?` by `sqlDelete`; it
refuses to execute any other statement. -/
def tableDriver : Driver Table where
  root := str "/home/u/.quiz"
  filepathJoin := fun a b => a ++ str "/" ++ b
  osStat := fun _ _ => none
  sqlOpen := fun _ t => (Except.ok 1, t)
  dbExec := fun _ _ t => (none, t)
  dbClose := fun _ t => t
  dbQuery := fun _ _ t => (Except.error (GoError.engine 1), t)
  dbPrepare := fun _ _ t => (none, t)
  stmtExec := fun _ sql args t =>
    if sql = "delete from cards where rowid=?" then
      match args with
      | [Value.int id] => (Except.ok (sqlDelete id t).1, (sqlDelete id t).2)
      | _ => (Except.error (GoError.engine 1), t)
    else (Except.error (GoError.engine 1), t)
  stmtQueryRow := fun _ _ _ t =>
    ({ id := 0, question := [], options := [], answer := [],
       err := some (GoError.engine 1) }, t)
  stmtClose := fun _ _ t => t

/-- A card table with the row ids 1, 2 and 3. -/
def threeCards : Table :=
  [{ rowid := 1, question := str "Question 1", options := [], answer := str "Answer 1" },
   { rowid := 2, question := str "Question 2", options := [], answer := str "Answer 2" },
   { rowid := 3, question := str "Question 3", options := [], answer := str "Answer 3" }]

/-! ## Lemmas on the Go string functions -/

theorem indexByte_of_not_mem (c : Byte) (a : GoString) (h : c ∉ a) :
    indexByte a c = none := by
  induction a with
  | nil => rfl
  | cons b bs ih =>
    have hb : b ≠ c := fun e => h (by simp [e])
    have hbs : c ∉ bs := fun e => h (by simp [e])
    simp [indexByte, hb, ih hbs]

theorem indexByte_append_sep (c : Byte) (a rest : GoString) (h : c ∉ a) :
    indexByte (a ++ c :: rest) c = some a.length := by
  induction a with
  | nil => simp [indexByte]
  | cons b bs ih =>
    have hb : b ≠ c := fun e => h (by simp [e])
    have hbs : c ∉ bs := fun e => h (by simp [e])
    simp [indexByte, hb, ih hbs]

theorem countByte_of_not_mem (c : Byte) (a : GoString) (h : c ∉ a) :
    countByte a c = 0 := by
  induction a with
  | nil => rfl
  | cons b bs ih =>
    have hb : b ≠ c := fun e => h (by simp [e])
    have hbs : c ∉ bs := fun e => h (by simp [e])
    simp [countByte, hb, ih hbs]

theorem countByte_append_sep (c : Byte) (a rest : GoString) (h : c ∉ a) :
    countByte (a ++ c :: rest) c = countByte rest c + 1 := by
  induction a with
  | nil => simp [countByte, Nat.add_comm]
  | cons b bs ih =>
    have hb : b ≠ c := fun e => h (by simp [e])
    have hbs : c ∉ bs := fun e => h (by simp [e])
    simp [countByte, hb, ih hbs]

/-- A string without the separator splits into itself alone. -/
theorem stringsSplit_of_not_mem (c : Byte) (a : GoString) (h : c ∉ a) :
    stringsSplit a c = [a] := by
  simp [stringsSplit, countByte_of_not_mem c a h, genSplit]

/-- Splitting cuts off a separator-free first field. -/
theorem stringsSplit_append_sep (c : Byte) (a rest : GoString) (h : c ∉ a) :
    stringsSplit (a ++ c :: rest) c = a :: stringsSplit rest c := by
  simp [stringsSplit, countByte_append_sep c a rest h, genSplit,
    indexByte_append_sep c a rest h]

theorem foldl_join_eq (sep : GoString) (rest : List GoString) (acc : GoString) :
    rest.foldl (fun b s => b ++ sep ++ s) acc
      = acc ++ (rest.map (fun s => sep ++ s)).flatten := by
  induction rest generalizing acc with
  | nil => simp
  | cons r rs ih =>
    rw [List.foldl_cons, ih]
    simp [List.append_assoc]

/-- Joining two or more elements puts the separator after the first one. -/
theorem stringsJoin_cons_cons (sep e f : GoString) (rest : List GoString) :
    stringsJoin (e :: f :: rest) sep = e ++ sep ++ stringsJoin (f :: rest) sep := by
  cases rest with
  | nil => simp [stringsJoin]
  | cons g gs =>
    simp only [stringsJoin, List.foldl_cons]
    rw [foldl_join_eq, foldl_join_eq]
    simp [List.append_assoc]

/-- Decoding an encoded non-empty list of separator-free options returns it. -/
theorem split_join_cons (o : GoString) (os : List GoString)
    (h : ∀ x ∈ o :: os, comma ∉ x) :
    stringsSplit (stringsJoin (o :: os) [comma]) comma = o :: os := by
  induction os generalizing o with
  | nil =>
    have ho : comma ∉ o := h o (by simp)
    simpa [stringsJoin] using stringsSplit_of_not_mem comma o ho
  | cons p ps ih =>
    have ho : comma ∉ o := h o (by simp)
    have hps : ∀ x ∈ p :: ps, comma ∉ x := fun x hx => h x (List.mem_cons_of_mem _ hx)
    have := ih p hps
    rw [stringsJoin_cons_cons]
    simp only [List.append_assoc, List.singleton_append]
    rw [stringsSplit_append_sep comma o _ ho, this]

/-! ## C1: the option codec -/

/-- C1 as stated fails for the sequence of length 0: the empty option list is
encoded as the empty string, which decodes to a list holding one empty option. -/
theorem option_codec_empty_list_not_restored :
    stringsSplit (stringsJoin [] [comma]) comma = [[]] ∧
    stringsSplit (stringsJoin [] [comma]) comma ≠ [] := by
  decide

/-- C1 (amended): for every non-empty sequence of option strings in which no
string contains a comma, splitting on "," the comma-joined sequence returns
exactly the original sequence. -/
theorem option_codec_round_trip (options : List GoString)
    (hne : options ≠ []) (hcomma : ∀ o ∈ options, comma ∉ o) :
    stringsSplit (stringsJoin options [comma]) comma = options := by
  cases options with
  | nil => exact absurd rfl hne
  | cons o os => exact split_join_cons o os hcomma

/-- The round trip on the options of the MCQ test row. -/
theorem option_codec_round_trip_witness :
    [str "Paris", str "London", str "Berlin", str "Rome"] ≠ [] ∧
    (∀ o ∈ [str "Paris", str "London", str "Berlin", str "Rome"], comma ∉ o) ∧
    stringsSplit (stringsJoin [str "Paris", str "London", str "Berlin", str "Rome"] [comma]) comma
      = [str "Paris", str "London", str "Berlin", str "Rome"] :=
  ⟨by decide, by decide,
   option_codec_round_trip [str "Paris", str "London", str "Berlin", str "Rome"]
     (by decide) (by decide)⟩

/-! ## C2: a created deck's file name is classified as its kind -/

/-- The first four bytes of a file name built for kind `Card` or `MCQ`. -/
theorem sliceTo_deckFileName (n : GoString) (k : Quiz) (hk : k = Card ∨ k = MCQ) :
    sliceTo (deckFileName n k) 4 = some (k.String ++ str "_") ∧
    sliceTo (deckFileName n k) 3 = some k.String := by
  rcases hk with rfl | rfl <;> simp [sliceTo, deckFileName, Quiz.String, Card, MCQ, str, utf8]

/-- On a name that carries the tag of kind `k`, `openDeck` goes on to open the
file and probe the table, and reports kind `k` on success. -/
theorem openDeck_of_tag {σ : Type} (d : Driver σ) (n : GoString) (k : Quiz) (w : World σ)
    (hk : k = Card ∨ k = MCQ) (h4 : sliceTo n 4 = some (k.String ++ str "_"))
    (h3 : sliceTo n 3 = some k.String) :
    openDeck d n w =
      match w.sqlOpen d (d.root ++ str "/" ++ n) with
      | (Except.error err, w1) => (Outcome.returned (none, Undefined, some err), w1)
      | (Except.ok db, w1) =>
        match w1.dbExec d db "Select * from cards" with
        | (some err, w2) =>
          (Outcome.returned (none, Undefined,
            some (GoError.errorsNew (str "Illegal Database: " ++ (d.root ++ str "/" ++ n)))),
           (w2.dbClose d db).printlnError err)
        | (none, w2) => (Outcome.returned (some db, k, none), w2) := by
  rcases hk with rfl | rfl
  · have e : ¬ (Card.String ++ str "_" ≠ str "CRD_" ∧ Card.String ++ str "_" ≠ str "MCQ_") := by
      decide
    have e3 : Card.String = str "CRD" := by decide
    simp only [openDeck, h4, h3]
    rw [if_neg e, if_pos e3]
  · have e : ¬ (MCQ.String ++ str "_" ≠ str "CRD_" ∧ MCQ.String ++ str "_" ≠ str "MCQ_") := by
      decide
    have e3 : ¬ MCQ.String = str "CRD" := by decide
    simp only [openDeck, h4, h3]
    rw [if_neg e, if_neg e3]

/-- C2: for every deck name n and every kind k in Card, MCQ, the file name
k.String() + "_" + n + ".db" that createDeck builds passes the four-byte check
of openDeck (its first four bytes are "CRD_" or "MCQ_", and openDeck does not
panic on it), and openDeck classifies it as kind k: whenever the file opens and
the table probe succeeds, openDeck returns the handle with kind k and no
error. -/
theorem addressing_round_trip {σ : Type} (d : Driver σ) (n : GoString) (k : Quiz)
    (w : World σ) (hk : k = Card ∨ k = MCQ) :
    (sliceTo (deckFileName n k) 4 = some (str "CRD_") ∨
      sliceTo (deckFileName n k) 4 = some (str "MCQ_")) ∧
    (openDeck d (deckFileName n k) w).1 ≠ Outcome.panicked ∧
    (∀ db w1 w2,
      w.sqlOpen d (d.root ++ str "/" ++ deckFileName n k) = (Except.ok db, w1) →
      w1.dbExec d db "Select * from cards" = (none, w2) →
      openDeck d (deckFileName n k) w = (Outcome.returned (some db, k, none), w2)) := by
  have h4 := (sliceTo_deckFileName n k hk).1
  have h3 := (sliceTo_deckFileName n k hk).2
  have ho := openDeck_of_tag d (deckFileName n k) k w hk h4 h3
  refine ⟨?_, ?_, ?_⟩
  · rcases hk with rfl | rfl
    · left; rw [h4]; decide
    · right; rw [h4]; decide
  · rw [ho]
    split
    · simp
    · split <;> simp
  · intro db w1 w2 hopen hprobe
    rw [ho, hopen]
    simp only [hprobe]

/-- The round trip for the MCQ deck "flashcards" of `main.go`, on the quiet
script. -/
theorem addressing_round_trip_witness :
    (MCQ = Card ∨ MCQ = MCQ) ∧
    (sliceTo (deckFileName (str "flashcards") MCQ) 4 = some (str "CRD_") ∨
      sliceTo (deckFileName (str "flashcards") MCQ) 4 = some (str "MCQ_")) ∧
    (openDeck Script.quiet.driver (str "MCQ_flashcards.db") start).1
      = Outcome.returned (some 1, MCQ, none) := by
  have h := addressing_round_trip Script.quiet.driver (str "flashcards") MCQ start
    (Or.inr rfl)
  refine ⟨Or.inr rfl, h.1, ?_⟩
  have e : deckFileName (str "flashcards") MCQ = str "MCQ_flashcards.db" := by decide
  rw [← e, h.2.2 1 _ _ rfl rfl]

/-! ## C3: `createDeck` on an existing deck -/

/-- C3 fails on the code: when `os.Stat` succeeds on the resolved path (the
deck file exists, the error is nil), `os.IsExist(nil)` is false, so createDeck
does not return "Quiz already exists": it opens the existing file as a
database, for kind Card issues CREATE TABLE on it, and returns nil. -/
theorem createDeck_existing_deck_not_refused {σ : Type} (d : Driver σ) (n : GoString)
    (w : World σ) (db : Handle)
    (hstat : d.osStat (d.filepathJoin d.root (deckFileName n Card)) w.st = none)
    (hopen : (d.sqlOpen (d.filepathJoin d.root (deckFileName n Card)) w.st).1 = Except.ok db) :
    (createDeck d n Card w).1 = none ∧
    Call.sqlOpen (d.filepathJoin d.root (deckFileName n Card)) ∈ (createDeck d n Card w).2.log ∧
    Call.dbExec db "CREATE TABLE cards (question TEXT not null, answer TEXT not null);"
      ∈ (createDeck d n Card w).2.log := by
  have hc : ¬ (Card = MCQ) := by decide
  rcases ho : d.sqlOpen (d.filepathJoin d.root (deckFileName n Card)) w.st with ⟨r, s1⟩
  rw [ho] at hopen
  simp only at hopen
  subst hopen
  simp [createDeck, World.osStat, World.printlnString, World.sqlOpen, World.dbExec,
    World.dbClose, hstat, osIsExist, ho, hc]

/-- The run of createDeck("questions", Card) with CRD_questions.db on disk:
no error, and the file is opened, given a table and closed. -/
theorem createDeck_existing_deck_not_refused_witness :
    Script.deckOnDisk.driver.osStat (str "/home/u/.quiz/CRD_questions.db") () = none ∧
    (createDeck Script.deckOnDisk.driver (str "questions") Card start).1 = none ∧
    Call.sqlOpen (str "/home/u/.quiz/CRD_questions.db")
      ∈ (createDeck Script.deckOnDisk.driver (str "questions") Card start).2.log ∧
    Call.dbExec 1 "CREATE TABLE cards (question TEXT not null, answer TEXT not null);"
      ∈ (createDeck Script.deckOnDisk.driver (str "questions") Card start).2.log :=
  ⟨by decide,
   createDeck_existing_deck_not_refused Script.deckOnDisk.driver (str "questions") start 1
     (by decide) rfl⟩

/-- The older copy `src/db.go` has the same test, with the same effect on an
existing deck. -/
theorem createDeckOld_existing_deck_reopened {σ : Type} (d : Driver σ) (n : GoString)
    (w : World σ) (db : Handle)
    (hstat : d.osStat (d.root ++ str "/" ++ Card.String ++ str "_" ++ n ++ str ".db") w.st
      = none)
    (hopen : (d.sqlOpen (d.root ++ str "/" ++ Card.String ++ str "_" ++ n ++ str ".db") w.st).1
      = Except.ok db) :
    (createDeckOld d n Card w).1 = none ∧
    Call.sqlOpen (d.root ++ str "/" ++ Card.String ++ str "_" ++ n ++ str ".db")
      ∈ (createDeckOld d n Card w).2.log := by
  have hc : ¬ (Card = MCQ) := by decide
  rcases ho : d.sqlOpen (d.root ++ str "/" ++ Card.String ++ str "_" ++ n ++ str ".db") w.st
    with ⟨r, s1⟩
  rw [ho] at hopen
  simp only at hopen
  subst hopen
  simp only [createDeckOld, World.osStat, World.sqlOpen, World.dbExec, World.dbClose, hstat,
    osIsExist, ho, hc]
  simp

/-! ## C4: `openDeck` on a short name -/

/-- C4 fails on the code: for every file name shorter than 4 bytes the slice
expression n[:4] of openDeck is out of range, so openDeck panics; it returns
no error, and no call has been made. -/
theorem openDeck_short_name_panics {σ : Type} (d : Driver σ) (n : GoString) (w : World σ)
    (hshort : n.length < 4) :
    openDeck d n w = (Outcome.panicked, w) := by
  have h4 : sliceTo n 4 = none := by
    simp only [sliceTo]
    rw [if_neg (by omega)]
  simp only [openDeck, h4]

/-- The file name ".db", which `checkQuizFiles` hands to openDeck, panics. -/
theorem openDeck_short_name_panics_witness :
    (str ".db").length < 4 ∧
    openDeck Script.quiet.driver (str ".db") start = (Outcome.panicked, start) :=
  ⟨by decide, openDeck_short_name_panics Script.quiet.driver (str ".db") start (by decide)⟩

/-! ## C5, C6: the full scan `parseDeck` -/

/-- When every row scans, the card loop appends one `CardItem` per row, in
order, and counts the rows. -/
theorem scanCards_all_ok (rows : List Row) (deck : List Item) (count : Nat)
    (hok : ∀ r ∈ rows, r.err = none) :
    scanCards rows (deck, count) =
      Except.ok (deck ++ rows.map (fun r =>
        Item.card { id := r.id, Question := r.question, Answer := r.answer }),
        count + rows.length) := by
  induction rows generalizing deck count with
  | nil => simp [scanCards]
  | cons r rs ih =>
    have hr : r.err = none := hok r (by simp)
    have hrs : ∀ x ∈ rs, x.err = none := fun x hx => hok x (List.mem_cons_of_mem _ hx)
    simp only [scanCards, hr]
    rw [ih _ _ hrs]
    simp [List.append_assoc, Nat.add_assoc, Nat.add_comm 1]

/-- When every row scans, the MCQ loop appends one `MCQItem` per row, in
order, and counts the rows. -/
theorem scanMCQs_all_ok (rows : List Row) (deck : List Item) (count : Nat)
    (hok : ∀ r ∈ rows, r.err = none) :
    scanMCQs rows (deck, count) =
      Except.ok (deck ++ rows.map (fun r =>
        Item.mcq { id := r.id, Question := r.question,
                   Options := stringsSplit r.options comma, Answer := r.answer }),
        count + rows.length) := by
  induction rows generalizing deck count with
  | nil => simp [scanMCQs]
  | cons r rs ih =>
    have hr : r.err = none := hok r (by simp)
    have hrs : ∀ x ∈ rs, x.err = none := fun x hx => hok x (List.mem_cons_of_mem _ hx)
    simp only [scanMCQs, hr]
    rw [ih _ _ hrs]
    simp [List.append_assoc, Nat.add_assoc, Nat.add_comm 1]

/-- The result of `parseDeck` for `Card` once the query has delivered rows
that all scan. -/
theorem parseDeck_card_all_ok {σ : Type} (d : Driver σ) (db : Handle) (w : World σ)
    (rows : List Row) (hok : ∀ r ∈ rows, r.err = none)
    (hq : (w.dbQuery d db "select rowid, question, answer from cards").1 = Except.ok rows) :
    (parseDeck d db Card w).1 =
      parseDeckEnd (rows.map (fun r =>
        Item.card { id := r.id, Question := r.question, Answer := r.answer }),
        rows.length) := by
  rcases hw : w.dbQuery d db "select rowid, question, answer from cards" with ⟨r, w1⟩
  rw [hw] at hq
  simp only at hq
  subst hq
  simp only [parseDeck, if_pos, hw, scanCards_all_ok rows [] 0 hok]
  simp

/-- The result of `parseDeck` for `MCQ` once the query has delivered rows that
all scan. -/
theorem parseDeck_mcq_all_ok {σ : Type} (d : Driver σ) (db : Handle) (w : World σ)
    (rows : List Row) (hok : ∀ r ∈ rows, r.err = none)
    (hq : (w.dbQuery d db "select rowid, question, options, answer from cards").1
      = Except.ok rows) :
    (parseDeck d db MCQ w).1 =
      parseDeckEnd (rows.map (fun r =>
        Item.mcq { id := r.id, Question := r.question,
                   Options := stringsSplit r.options comma, Answer := r.answer }),
        rows.length) := by
  have hc : ¬ (MCQ = Card) := by decide
  rcases hw : w.dbQuery d db "select rowid, question, options, answer from cards" with ⟨r, w1⟩
  rw [hw] at hq
  simp only at hq
  subst hq
  simp only [parseDeck, if_neg hc, if_pos, hw, scanMCQs_all_ok rows [] 0 hok]
  simp

/-- C5: for kind Card and for kind MCQ, when the projection query succeeds and
yields zero rows, parseDeck fails with sql.ErrNoRows and returns no items (the
nil slice); and when the query yields at least one row and every row scans,
parseDeck returns no error. -/
theorem parseDeck_empty_result_policy {σ : Type} (d : Driver σ) (db : Handle) (w : World σ) :
    ((w.dbQuery d db "select rowid, question, answer from cards").1 = Except.ok [] →
      (parseDeck d db Card w).1 = ([], some GoError.sqlErrNoRows)) ∧
    ((w.dbQuery d db "select rowid, question, options, answer from cards").1 = Except.ok [] →
      (parseDeck d db MCQ w).1 = ([], some GoError.sqlErrNoRows)) ∧
    (∀ rows : List Row, rows ≠ [] → (∀ r ∈ rows, r.err = none) →
      (w.dbQuery d db "select rowid, question, answer from cards").1 = Except.ok rows →
      (parseDeck d db Card w).1.2 = none) ∧
    (∀ rows : List Row, rows ≠ [] → (∀ r ∈ rows, r.err = none) →
      (w.dbQuery d db "select rowid, question, options, answer from cards").1 = Except.ok rows →
      (parseDeck d db MCQ w).1.2 = none) := by
  refine ⟨?_, ?_, ?_, ?_⟩
  · intro hq
    rw [parseDeck_card_all_ok d db w [] (by simp) hq]
    rfl
  · intro hq
    rw [parseDeck_mcq_all_ok d db w [] (by simp) hq]
    rfl
  · intro rows hne hok hq
    rw [parseDeck_card_all_ok d db w rows hok hq]
    have hlen : ¬ rows.length < 1 := by
      cases rows with
      | nil => exact absurd rfl hne
      | cons r rs => simp
    simp [parseDeckEnd, hlen]
  · intro rows hne hok hq
    rw [parseDeck_mcq_all_ok d db w rows hok hq]
    have hlen : ¬ rows.length < 1 := by
      cases rows with
      | nil => exact absurd rfl hne
      | cons r rs => simp
    simp [parseDeckEnd, hlen]

/-- The policy on an empty card table, an empty MCQ table and on the card rows
and the MCQ rows of `TestParseDeck`. -/
theorem parseDeck_empty_result_policy_witness :
    (parseDeck Script.quiet.driver 1 Card start).1 = ([], some GoError.sqlErrNoRows) ∧
    (parseDeck Script.quiet.driver 1 MCQ start).1 = ([], some GoError.sqlErrNoRows) ∧
    Script.cardRows ≠ [] ∧ (∀ r ∈ Script.cardRows, r.err = none) ∧
    (parseDeck (Script.withRows Script.cardRows).driver 1 Card start).1.2 = none ∧
    Script.mcqRows ≠ [] ∧ (∀ r ∈ Script.mcqRows, r.err = none) ∧
    (parseDeck (Script.withRows Script.mcqRows).driver 1 MCQ start).1.2 = none :=
  ⟨(parseDeck_empty_result_policy Script.quiet.driver 1 start).1 rfl,
   (parseDeck_empty_result_policy Script.quiet.driver 1 start).2.1 rfl,
   by decide, by decide,
   (parseDeck_empty_result_policy (Script.withRows Script.cardRows).driver 1 start).2.2.1
     Script.cardRows (by decide) (by decide) rfl,
   by decide, by decide,
   (parseDeck_empty_result_policy (Script.withRows Script.mcqRows).driver 1 start).2.2.2
     Script.mcqRows (by decide) (by decide) rfl⟩

/-- C6: for every non-empty sequence of rows returned by the query in which
each row scans successfully, parseDeck(Card) returns exactly one CardItem per
row, in the same order, carrying that row's id, question and answer, and
parseDeck(MCQ) returns exactly one MCQItem per row, in the same order, carrying
that row's id, question and answer and with Options equal to the row's options
text split on ","; both return no error.  The options text
"Paris,London,Berlin,Rome" splits into "Paris", "London", "Berlin", "Rome". -/
theorem parseDeck_decodes_every_row {σ : Type} (d : Driver σ) (db : Handle) (w : World σ)
    (rows : List Row) (hne : rows ≠ []) (hok : ∀ r ∈ rows, r.err = none) :
    ((w.dbQuery d db "select rowid, question, answer from cards").1 = Except.ok rows →
      (parseDeck d db Card w).1 =
        (rows.map (fun r =>
          Item.card { id := r.id, Question := r.question, Answer := r.answer }), none)) ∧
    ((w.dbQuery d db "select rowid, question, options, answer from cards").1 = Except.ok rows →
      (parseDeck d db MCQ w).1 =
        (rows.map (fun r =>
          Item.mcq { id := r.id, Question := r.question,
                     Options := stringsSplit r.options comma, Answer := r.answer }), none)) ∧
    stringsSplit (str "Paris,London,Berlin,Rome") comma
      = [str "Paris", str "London", str "Berlin", str "Rome"] := by
  have hlen : ¬ rows.length < 1 := by
    cases rows with
    | nil => exact absurd rfl hne
    | cons r rs => simp
  refine ⟨?_, ?_, by decide⟩
  · intro hq
    rw [parseDeck_card_all_ok d db w rows hok hq]
    simp [parseDeckEnd, hlen]
  · intro hq
    rw [parseDeck_mcq_all_ok d db w rows hok hq]
    simp [parseDeckEnd, hlen]

/-- The decks `TestParseDeck` expects for its card rows and its MCQ rows. -/
theorem parseDeck_decodes_every_row_witness :
    Script.cardRows ≠ [] ∧ (∀ r ∈ Script.cardRows, r.err = none) ∧
    (parseDeck (Script.withRows Script.cardRows).driver 1 Card start).1 =
      ([Item.card { id := 0, Question := str "What is the capital of France?",
                    Answer := str "Paris" },
        Item.card { id := 1, Question := str "What is the tallest mountain in the world?",
                    Answer := str "Mount Everest" }], none) ∧
    Script.mcqRows ≠ [] ∧ (∀ r ∈ Script.mcqRows, r.err = none) ∧
    (parseDeck (Script.withRows Script.mcqRows).driver 1 MCQ start).1 =
      ([Item.mcq { id := 0, Question := str "What is the capital of France?",
                   Options := [str "Paris", str "London", str "Berlin", str "Rome"],
                   Answer := str "Paris" },
        Item.mcq { id := 1, Question := str "What is the tallest mountain in the world?",
                   Options := [str "Mount Kilimanjaro", str "Mount Everest", str "K2",
                               str "Mont Blanc"],
                   Answer := str "Mount Everest" }], none) := by
  have hc := parseDeck_decodes_every_row (Script.withRows Script.cardRows).driver 1 start
    Script.cardRows (by decide) (by decide)
  have hm := parseDeck_decodes_every_row (Script.withRows Script.mcqRows).driver 1 start
    Script.mcqRows (by decide) (by decide)
  refine ⟨by decide, by decide, ?_, by decide, by decide, ?_⟩
  · rw [hc.1 rfl]
    decide
  · rw [hm.2.1 rfl]
    decide

/-! ## C7, C8: `updateCard` and `updateMCQ` -/

/-- The error `updateCard` returns, by the answers to its two calls. -/
theorem updateCard_error {σ : Type} (d : Driver σ) (c : CardItem) (db : Handle) (w : World σ) :
    (updateCard d c db w).1 =
      match (w.dbPrepare d db "update cards set question=?, answer=? where rowid = ?").1 with
      | some _ => some (GoError.errorsNew (str "Error preparing statement"))
      | none =>
        match ((w.dbPrepare d db "update cards set question=?, answer=? where rowid = ?").2.stmtExec
            d db "update cards set question=?, answer=? where rowid = ?"
            [Value.text c.Question, Value.text c.Answer, Value.int c.id]).1 with
        | Except.error err => some err
        | Except.ok result =>
          if result.rowsAffected = 0 then some (GoError.errorsNew (str "Card not found"))
          else none := by
  simp only [updateCard]
  split
  · next e w1 h => simp [h]
  · next w1 h =>
    simp only [h]
    split
    · next err he => simp [he]
    · next result he =>
      split <;> simp

/-- The error `updateMCQ` returns, by the answers to its two calls. -/
theorem updateMCQ_error {σ : Type} (d : Driver σ) (c : MCQItem) (db : Handle) (w : World σ) :
    (updateMCQ d c db w).1 =
      match (w.dbPrepare d db
          "update cards set question=?, answer=?, options=? where rowid = ?").1 with
      | some _ => some (GoError.errorsNew (str "Error preparing statement"))
      | none =>
        match ((w.dbPrepare d db
            "update cards set question=?, answer=?, options=? where rowid = ?").2.stmtExec
            d db "update cards set question=?, answer=?, options=? where rowid = ?"
            [Value.text c.Question, Value.text c.Answer,
             Value.text (stringsJoin c.Options [comma]), Value.int c.id]).1 with
        | Except.error err => some err
        | Except.ok result =>
          if result.rowsAffected = 0 then some (GoError.errorsNew (str "Card not found"))
          else none := by
  simp only [updateMCQ]
  split
  · next e w1 h => simp [h]
  · next w1 h =>
    simp only [h]
    split
    · next err he => simp [he]
    · next result he =>
      split <;> simp

/-- C7: for every CardItem passed to updateCard and every MCQItem passed to
updateMCQ, if the statement is prepared and executed without a database error
but reports zero rows affected, the call returns the error "Card not found",
not success. -/
theorem update_missing_id_not_found {σ : Type} (d : Driver σ) (db : Handle) (w : World σ)
    (card : CardItem) (mcq : MCQItem) (result : SqlResult) (hzero : result.rowsAffected = 0) :
    ((w.dbPrepare d db "update cards set question=?, answer=? where rowid = ?").1 = none →
      ((w.dbPrepare d db "update cards set question=?, answer=? where rowid = ?").2.stmtExec
          d db "update cards set question=?, answer=? where rowid = ?"
          [Value.text card.Question, Value.text card.Answer, Value.int card.id]).1
        = Except.ok result →
      (updateCard d card db w).1 = some (GoError.errorsNew (str "Card not found"))) ∧
    ((w.dbPrepare d db
        "update cards set question=?, answer=?, options=? where rowid = ?").1 = none →
      ((w.dbPrepare d db
          "update cards set question=?, answer=?, options=? where rowid = ?").2.stmtExec
          d db "update cards set question=?, answer=?, options=? where rowid = ?"
          [Value.text mcq.Question, Value.text mcq.Answer,
           Value.text (stringsJoin mcq.Options [comma]), Value.int mcq.id]).1
        = Except.ok result →
      (updateMCQ d mcq db w).1 = some (GoError.errorsNew (str "Card not found"))) := by
  constructor
  · intro hp he
    rw [updateCard_error, hp]
    simp only [he, hzero, if_true]
  · intro hp he
    rw [updateMCQ_error, hp]
    simp only [he, hzero, if_true]

/-- The failure cases of `TestUpdateCard` and `TestUpdateMCQ`: id 999, zero
rows affected. -/
theorem update_missing_id_not_found_witness :
    (updateCard (Script.affecting 0).driver Script.card999 1 start).1
      = some (GoError.errorsNew (str "Card not found")) ∧
    (updateMCQ (Script.affecting 0).driver Script.mcq999 1 start).1
      = some (GoError.errorsNew (str "Card not found")) :=
  ⟨(update_missing_id_not_found (Script.affecting 0).driver 1 start Script.card999
      Script.mcq999 { rowsAffected := 0, rowsAffectedErr := none } rfl).1 rfl rfl,
   (update_missing_id_not_found (Script.affecting 0).driver 1 start Script.card999
      Script.mcq999 { rowsAffected := 0, rowsAffectedErr := none } rfl).2 rfl rfl⟩

/-- C8 as stated fails: when the executed statement reports 2 affected rows,
updateCard and updateMCQ both return nil, although 2 is not 1. -/
theorem update_succeeds_on_two_rows :
    ((Script.affecting 2).driver.stmtExec 1
        "update cards set question=?, answer=? where rowid = ?"
        [Value.text Script.card999.Question, Value.text Script.card999.Answer,
         Value.int Script.card999.id] ()).1
      = Except.ok { rowsAffected := 2, rowsAffectedErr := none } ∧
    (2 : Int) ≠ 1 ∧
    (updateCard (Script.affecting 2).driver Script.card999 1 start).1 = none ∧
    (updateMCQ (Script.affecting 2).driver Script.mcq999 1 start).1 = none :=
  ⟨rfl, by decide, by decide, by decide⟩

/-- C8 (amended): for every item, updateCard and updateMCQ return success (a
nil error) only when the statement was prepared and executed without error and
the reported number of affected rows is not 0. -/
theorem update_success_only_if_rows_affected {σ : Type} (d : Driver σ) (db : Handle)
    (w : World σ) (card : CardItem) (mcq : MCQItem) :
    ((updateCard d card db w).1 = none →
      (w.dbPrepare d db "update cards set question=?, answer=? where rowid = ?").1 = none ∧
      ∃ result : SqlResult,
        ((w.dbPrepare d db "update cards set question=?, answer=? where rowid = ?").2.stmtExec
            d db "update cards set question=?, answer=? where rowid = ?"
            [Value.text card.Question, Value.text card.Answer, Value.int card.id]).1
          = Except.ok result ∧ result.rowsAffected ≠ 0) ∧
    ((updateMCQ d mcq db w).1 = none →
      (w.dbPrepare d db
        "update cards set question=?, answer=?, options=? where rowid = ?").1 = none ∧
      ∃ result : SqlResult,
        ((w.dbPrepare d db
            "update cards set question=?, answer=?, options=? where rowid = ?").2.stmtExec
            d db "update cards set question=?, answer=?, options=? where rowid = ?"
            [Value.text mcq.Question, Value.text mcq.Answer,
             Value.text (stringsJoin mcq.Options [comma]), Value.int mcq.id]).1
          = Except.ok result ∧ result.rowsAffected ≠ 0) := by
  constructor
  · intro h
    rw [updateCard_error] at h
    split at h
    · simp at h
    · next hp =>
      refine ⟨hp, ?_⟩
      split at h
      · simp at h
      · next result he =>
        refine ⟨result, he, ?_⟩
        intro hz
        simp [hz] at h
  · intro h
    rw [updateMCQ_error] at h
    split at h
    · simp at h
    · next hp =>
      refine ⟨hp, ?_⟩
      split at h
      · simp at h
      · next result he =>
        refine ⟨result, he, ?_⟩
        intro hz
        simp [hz] at h

/-- The success cases of `TestUpdateCard` and `TestUpdateMCQ`: one row
affected. -/
theorem update_success_only_if_rows_affected_witness :
    (updateCard (Script.affecting 1).driver Script.card999 1 start).1 = none ∧
    (updateMCQ (Script.affecting 1).driver Script.mcq999 1 start).1 = none ∧
    (∃ result : SqlResult,
      ((Script.affecting 1).driver.stmtExec 1
          "update cards set question=?, answer=? where rowid = ?"
          [Value.text Script.card999.Question, Value.text Script.card999.Answer,
           Value.int Script.card999.id] ()).1 = Except.ok result ∧
      result.rowsAffected ≠ 0) :=
  ⟨by decide, by decide,
   ((update_success_only_if_rows_affected (Script.affecting 1).driver 1 start Script.card999
      Script.mcq999).1 (by decide)).2⟩

/-! ## C9: `deleteItem` on the reference engine -/

/-- In a table with distinct row ids, removing the rows with the id of a stored
row removes that row alone. -/
theorem filter_rowid_eq_erase (t : Table) (r : StoredRow)
    (hdistinct : (t.map StoredRow.rowid).Nodup) (hr : r ∈ t) :
    t.filter (fun x => x.rowid ≠ r.rowid) = t.erase r := by
  induction t with
  | nil => simp at hr
  | cons x xs ih =>
    rw [List.map_cons, List.nodup_cons] at hdistinct
    by_cases hx : x = r
    · subst hx
      have hf : xs.filter (fun y => decide (y.rowid ≠ x.rowid)) = xs := by
        rw [List.filter_eq_self]
        intro y hy
        have hne : y.rowid ≠ x.rowid := by
          intro e
          exact hdistinct.1 (e ▸ List.mem_map_of_mem StoredRow.rowid hy)
        exact decide_eq_true hne
      rw [List.filter_cons_of_neg (by simp), List.erase_cons_head, hf]
    · have hrxs : r ∈ xs := by
        rcases List.mem_cons.mp hr with e | e
        · exact absurd e.symm hx
        · exact e
      have hne : x.rowid ≠ r.rowid := by
        intro e
        exact hdistinct.1 (e ▸ List.mem_map_of_mem StoredRow.rowid hrxs)
      have hp : (fun y : StoredRow => decide (y.rowid ≠ r.rowid)) x = true :=
        decide_eq_true hne
      rw [@List.filter_cons_of_pos _ (fun y : StoredRow => decide (y.rowid ≠ r.rowid)) x xs hp,
        List.erase_cons_tail (by simpa using hx),
        ih hdistinct.2 hrxs]

/-- At least one row carries the id of a stored row. -/
theorem count_rowid_of_mem (t : Table) (r : StoredRow) (hr : r ∈ t) :
    (t.filter (fun x => x.rowid = r.rowid)).length ≠ 0 := by
  intro h
  have hmem : r ∈ t.filter (fun x => x.rowid = r.rowid) := by
    simp [List.mem_filter, hr]
  rw [List.length_eq_zero] at h
  rw [h] at hmem
  simp at hmem

/-- The result of `deleteItem` on the reference engine. -/
theorem deleteItem_tableDriver (t : Table) (id : Int) (db : Handle) (log : List Call) :
    (deleteItem tableDriver id db { st := t, log := log }).1 =
      (if ((t.filter (fun r => r.rowid = id)).length : Int) = 0
       then some (GoError.errorsNew (str "Card not found")) else none) ∧
    (deleteItem tableDriver id db { st := t, log := log }).2.st
      = t.filter (fun r => r.rowid ≠ id) := by
  constructor
  · simp only [deleteItem, World.dbPrepare, World.stmtExec, World.stmtClose, tableDriver,
      sqlDelete, if_true]
    split <;> rfl
  · simp only [deleteItem, World.dbPrepare, World.stmtExec, World.stmtClose, tableDriver,
      sqlDelete, if_true]
    split <;> rfl

/-- C9: for every deck table whose rows have distinct row ids and every id,
deleteItem(id) on the reference engine returns the error "Card not found" and
leaves the table unchanged when no row has that id; and when a row has that id
it returns nil and the resulting table is the original table without that one
row, every other row being kept unchanged and in place. -/
theorem deleteItem_removes_exactly_addressed_row (t : Table) (id : Int) (db : Handle)
    (log : List Call) (hdistinct : (t.map StoredRow.rowid).Nodup) :
    ((∀ r ∈ t, r.rowid ≠ id) →
      (deleteItem tableDriver id db { st := t, log := log }).1
        = some (GoError.errorsNew (str "Card not found")) ∧
      (deleteItem tableDriver id db { st := t, log := log }).2.st = t) ∧
    (∀ r ∈ t, r.rowid = id →
      (deleteItem tableDriver id db { st := t, log := log }).1 = none ∧
      (deleteItem tableDriver id db { st := t, log := log }).2.st = t.erase r ∧
      (∀ x, x ∈ (deleteItem tableDriver id db { st := t, log := log }).2.st ↔ x ∈ t ∧ x ≠ r)) := by
  have hd := deleteItem_tableDriver t id db log
  constructor
  · intro hnone
    have hf : t.filter (fun r => r.rowid = id) = [] := by
      rw [List.filter_eq_nil_iff]
      intro r hr
      simpa using hnone r hr
    have hk : t.filter (fun r => r.rowid ≠ id) = t := by
      rw [List.filter_eq_self]
      intro r hr
      simpa using hnone r hr
    rw [hd.1, hd.2, hf, hk]
    simp
  · intro r hr hid
    subst hid
    have hcount := count_rowid_of_mem t r hr
    have herase := filter_rowid_eq_erase t r hdistinct hr
    have hnodup : t.Nodup := List.Nodup.of_map _ hdistinct
    rw [hd.1, hd.2, herase]
    refine ⟨?_, rfl, ?_⟩
    · rw [if_neg]
      exact_mod_cast hcount
    · intro x
      rw [hnodup.mem_erase_iff]
      exact And.comm

/-- Deleting id 2 and the missing id 999 from a table with the ids 1, 2, 3. -/
theorem deleteItem_removes_exactly_addressed_row_witness :
    (threeCards.map StoredRow.rowid).Nodup ∧
    (deleteItem tableDriver 999 1 { st := threeCards, log := [] }).1
      = some (GoError.errorsNew (str "Card not found")) ∧
    (deleteItem tableDriver 999 1 { st := threeCards, log := [] }).2.st
      = threeCards ∧
    (deleteItem tableDriver 2 1 { st := threeCards, log := [] }).1 = none ∧
    (deleteItem tableDriver 2 1 { st := threeCards, log := [] }).2.st
      = [{ rowid := 1, question := str "Question 1", options := [], answer := str "Answer 1" },
         { rowid := 3, question := str "Question 3", options := [], answer := str "Answer 3" }] := by
  have hd : (threeCards.map StoredRow.rowid).Nodup := by decide
  have h999 := (deleteItem_removes_exactly_addressed_row threeCards 999 1 [] hd).1
    (by decide)
  have h2 := (deleteItem_removes_exactly_addressed_row threeCards 2 1 [] hd).2
    { rowid := 2, question := str "Question 2", options := [], answer := str "Answer 2" }
    (by decide) rfl
  refine ⟨hd, h999.1, h999.2, h2.1, ?_⟩
  rw [h2.2.1]
  decide

/-! ## C10: `retrieveCard` and `retrieveMCQ` on failure -/

/-- C10: for every id and every outcome of the lookup, whenever retrieveCard
returns a non-nil error the returned CardItem is the zero value CardItem{}, and
whenever retrieveMCQ returns a non-nil error the returned MCQItem is the zero
value MCQItem{}: no partially scanned field is returned. -/
theorem retrieve_zero_value_on_failure {σ : Type} (d : Driver σ) (id : Int) (db : Handle)
    (w : World σ) :
    ((retrieveCard d id db w).1.2 ≠ none → (retrieveCard d id db w).1.1 = CardItem.zero) ∧
    ((retrieveMCQ d id db w).1.2 ≠ none → (retrieveMCQ d id db w).1.1 = MCQItem.zero) := by
  constructor
  · simp only [retrieveCard]
    split
    · intro _; rfl
    · split
      · split <;> (intro _; rfl)
      · intro h; exact absurd rfl h
  · simp only [retrieveMCQ]
    split
    · intro _; rfl
    · split
      · split <;> (intro _; rfl)
      · intro h; exact absurd rfl h

/-- A scan that fails after writing the id and the question, and the missing
id 999 of `TestRetrieveCard`: the items returned are the zero values. -/
theorem retrieve_zero_value_on_failure_witness :
    (retrieveCard Script.brokenScan.driver 5 1 start).1
      = (CardItem.zero, some (GoError.engine 7)) ∧
    (retrieveMCQ Script.quiet.driver 999 1 start).1
      = (MCQItem.zero, some (GoError.errorsNew (str "Card not found"))) := by
  have hc := (retrieve_zero_value_on_failure Script.brokenScan.driver 5 1 start).1
    (by decide)
  have hm := (retrieve_zero_value_on_failure Script.quiet.driver 999 1 start).2 (by decide)
  exact ⟨Prod.ext hc (by decide), Prod.ext hm (by decide)⟩

/-! ## C14: `openDeck` on a name with a wrong tag -/

/-- C14: for every file name of at least 4 bytes whose first four bytes are
neither "CRD_" nor "MCQ_" (compared byte for byte, so case-sensitively),
openDeck returns the error "Invalid Database Type! Must be MCQ or CRD" with a
nil handle and kind Undefined, and the world is the one it was called in: no
call was made, so the file was not opened and the table was not probed. -/
theorem openDeck_wrong_tag_rejected {σ : Type} (d : Driver σ) (n : GoString) (w : World σ)
    (hlen : 4 ≤ n.length) (hcrd : n.take 4 ≠ str "CRD_") (hmcq : n.take 4 ≠ str "MCQ_") :
    openDeck d n w =
      (Outcome.returned (none, Undefined,
        some (GoError.errorsNew (str "Invalid Database Type! Must be MCQ or CRD"))), w) := by
  have h4 : sliceTo n 4 = some (n.take 4) := by
    simp only [sliceTo]
    rw [if_pos hlen]
  simp only [openDeck, h4]
  rw [if_pos ⟨hcrd, hmcq⟩]

/-- The name "XYZ_foo.db" is rejected with nothing logged, and so is the lower
case "crd_foo.db". -/
theorem openDeck_wrong_tag_rejected_witness :
    4 ≤ (str "XYZ_foo.db").length ∧
    openDeck Script.quiet.driver (str "XYZ_foo.db") start =
      (Outcome.returned (none, Undefined,
        some (GoError.errorsNew (str "Invalid Database Type! Must be MCQ or CRD"))), start) ∧
    (openDeck Script.quiet.driver (str "XYZ_foo.db") start).2.log = [] ∧
    openDeck Script.quiet.driver (str "crd_foo.db") start =
      (Outcome.returned (none, Undefined,
        some (GoError.errorsNew (str "Invalid Database Type! Must be MCQ or CRD"))), start) :=
  ⟨by decide,
   openDeck_wrong_tag_rejected Script.quiet.driver (str "XYZ_foo.db") start
     (by decide) (by decide) (by decide),
   by rw [openDeck_wrong_tag_rejected Script.quiet.driver (str "XYZ_foo.db") start
     (by decide) (by decide) (by decide)]; rfl,
   openDeck_wrong_tag_rejected Script.quiet.driver (str "crd_foo.db") start
     (by decide) (by decide) (by decide)⟩

/-! ## C15: writing back the options that were read -/

/-- A string is its first `m` bytes, the separator found at `m`, and the rest. -/
theorem take_sep_drop_of_indexByte (c : Byte) (s : GoString) (m : Nat)
    (h : indexByte s c = some m) : s.take m ++ c :: s.drop (m + 1) = s := by
  induction s generalizing m with
  | nil => simp [indexByte] at h
  | cons b bs ih =>
    by_cases hb : b = c
    · subst hb
      simp only [indexByte, if_true, Option.some.injEq] at h
      subst h
      simp
    · simp only [indexByte, if_neg hb, Option.map_eq_some'] at h
      obtain ⟨k, hk, rfl⟩ := h
      simp [ih k hk]

/-- The split loop always yields a first field. -/
theorem genSplit_eq_cons (c : Byte) (n : Nat) (s : GoString) :
    ∃ f fs, genSplit c n s = f :: fs := by
  cases n with
  | zero => exact ⟨s, [], rfl⟩
  | succ k =>
    simp only [genSplit]
    split
    · exact ⟨s, [], rfl⟩
    · exact ⟨_, _, rfl⟩

/-- Joining the fields cut by the split loop, whatever its bound, restores the
string. -/
theorem stringsJoin_genSplit (c : Byte) (n : Nat) (s : GoString) :
    stringsJoin (genSplit c n s) [c] = s := by
  induction n generalizing s with
  | zero => simp [genSplit, stringsJoin]
  | succ k ih =>
    simp only [genSplit]
    split
    · simp [stringsJoin]
    · next m hm =>
      obtain ⟨f, fs, hf⟩ := genSplit_eq_cons c k (s.drop (m + 1))
      have hrest := ih (s.drop (m + 1))
      rw [hf] at hrest ⊢
      rw [stringsJoin_cons_cons, hrest]
      simpa using take_sep_drop_of_indexByte c s m hm

/-- The calls of `updateMCQ` once its statement is prepared: the options are
bound as the comma-joined option list of the item. -/
theorem updateMCQ_log {σ : Type} (d : Driver σ) (c : MCQItem) (db : Handle) (w : World σ)
    (hp : (w.dbPrepare d db
      "update cards set question=?, answer=?, options=? where rowid = ?").1 = none) :
    (updateMCQ d c db w).2.log =
      w.log ++
        [Call.dbPrepare db "update cards set question=?, answer=?, options=? where rowid = ?",
         Call.stmtExec db "update cards set question=?, answer=?, options=? where rowid = ?"
           [Value.text c.Question, Value.text c.Answer,
            Value.text (stringsJoin c.Options [comma]), Value.int c.id],
         Call.stmtClose db "update cards set question=?, answer=?, options=? where rowid = ?"] := by
  rcases hw : w.dbPrepare d db
    "update cards set question=?, answer=?, options=? where rowid = ?" with ⟨pe, w1⟩
  have hlog : w1.log = w.log ++ [Call.dbPrepare db
      "update cards set question=?, answer=?, options=? where rowid = ?"] := by
    have h2 := congrArg (fun x => x.2.log) hw
    simpa [World.dbPrepare] using h2.symm
  rw [hw] at hp
  simp only at hp
  subst hp
  simp only [updateMCQ, hw]
  split
  · simp [World.stmtClose, World.stmtExec, hlog]
  · split <;> simp [World.stmtClose, World.stmtExec, hlog]

/-- The item `retrieveMCQ` returns when it returns no error: the fields of the
scanned row, with the options text split on the comma. -/
theorem retrieveMCQ_item {σ : Type} (d : Driver σ) (id : Int) (db : Handle) (w : World σ)
    (hok : (retrieveMCQ d id db w).1.2 = none) :
    (retrieveMCQ d id db w).1.1 =
      { id := ((w.dbPrepare d db "select * from cards where rowid=?").2.stmtQueryRow d db
                "select * from cards where rowid=?" [Value.int id]).1.id,
        Question := ((w.dbPrepare d db "select * from cards where rowid=?").2.stmtQueryRow d db
                "select * from cards where rowid=?" [Value.int id]).1.question,
        Options := stringsSplit
          ((w.dbPrepare d db "select * from cards where rowid=?").2.stmtQueryRow d db
                "select * from cards where rowid=?" [Value.int id]).1.options comma,
        Answer := ((w.dbPrepare d db "select * from cards where rowid=?").2.stmtQueryRow d db
                "select * from cards where rowid=?" [Value.int id]).1.answer } := by
  revert hok
  simp only [retrieveMCQ]
  split
  · intro h; simp at h
  · next w1 hp =>
    simp only [hp]
    split
    · split <;> (intro h; simp at h)
    · intro _; rfl

/-- C15: for every string s (with or without commas, the empty string
included), joining with "," the list obtained by splitting s on "," gives back
exactly s.  Hence an MCQ read by retrieveMCQ, and every MCQ of a deck read by
parseDeck, when passed unchanged to updateMCQ, has its statement executed with
the question, the answer, the id and exactly the options text of the row it
was read from. -/
theorem options_reencoding_lossless :
    (∀ s : GoString, stringsJoin (stringsSplit s comma) [comma] = s) ∧
    (∀ (σ τ : Type) (d : Driver σ) (id : Int) (db : Handle) (w : World σ)
      (d2 : Driver τ) (db2 : Handle) (w2 : World τ),
      (retrieveMCQ d id db w).1.2 = none →
      (w2.dbPrepare d2 db2
        "update cards set question=?, answer=?, options=? where rowid = ?").1 = none →
      (updateMCQ d2 (retrieveMCQ d id db w).1.1 db2 w2).2.log =
        w2.log ++
          [Call.dbPrepare db2 "update cards set question=?, answer=?, options=? where rowid = ?",
           Call.stmtExec db2 "update cards set question=?, answer=?, options=? where rowid = ?"
             [Value.text ((w.dbPrepare d db "select * from cards where rowid=?").2.stmtQueryRow
                d db "select * from cards where rowid=?" [Value.int id]).1.question,
              Value.text ((w.dbPrepare d db "select * from cards where rowid=?").2.stmtQueryRow
                d db "select * from cards where rowid=?" [Value.int id]).1.answer,
              Value.text ((w.dbPrepare d db "select * from cards where rowid=?").2.stmtQueryRow
                d db "select * from cards where rowid=?" [Value.int id]).1.options,
              Value.int ((w.dbPrepare d db "select * from cards where rowid=?").2.stmtQueryRow
                d db "select * from cards where rowid=?" [Value.int id]).1.id],
           Call.stmtClose db2
             "update cards set question=?, answer=?, options=? where rowid = ?"]) ∧
    (∀ (σ τ : Type) (d : Driver σ) (db : Handle) (w : World σ) (rows : List Row)
      (d2 : Driver τ) (db2 : Handle) (w2 : World τ),
      (w.dbQuery d db "select rowid, question, options, answer from cards").1 = Except.ok rows →
      (∀ r ∈ rows, r.err = none) →
      (w2.dbPrepare d2 db2
        "update cards set question=?, answer=?, options=? where rowid = ?").1 = none →
      ∀ m, Item.mcq m ∈ (parseDeck d db MCQ w).1.1 →
        ∃ r ∈ rows,
          (updateMCQ d2 m db2 w2).2.log =
            w2.log ++
              [Call.dbPrepare db2
                 "update cards set question=?, answer=?, options=? where rowid = ?",
               Call.stmtExec db2
                 "update cards set question=?, answer=?, options=? where rowid = ?"
                 [Value.text r.question, Value.text r.answer, Value.text r.options,
                  Value.int r.id],
               Call.stmtClose db2
                 "update cards set question=?, answer=?, options=? where rowid = ?"]) := by
  have hjoin : ∀ s : GoString, stringsJoin (stringsSplit s comma) [comma] = s :=
    fun s => stringsJoin_genSplit comma (countByte s comma) s
  refine ⟨hjoin, ?_, ?_⟩
  · intro σ τ d id db w d2 db2 w2 hok hp
    rw [updateMCQ_log d2 _ db2 w2 hp, retrieveMCQ_item d id db w hok]
    simp only [hjoin]
  · intro σ τ d db w rows d2 db2 w2 hq hrows hp m hm
    rw [parseDeck_mcq_all_ok d db w rows hrows hq] at hm
    have hdeck : (parseDeckEnd (rows.map (fun r =>
        Item.mcq { id := r.id, Question := r.question,
                   Options := stringsSplit r.options comma, Answer := r.answer }),
        rows.length)).1 = rows.map (fun r =>
        Item.mcq { id := r.id, Question := r.question,
                   Options := stringsSplit r.options comma, Answer := r.answer }) := by
      simp only [parseDeckEnd]
      split <;> rfl
    rw [hdeck, List.mem_map] at hm
    obtain ⟨r, hr, hrm⟩ := hm
    refine ⟨r, hr, ?_⟩
    have hmr : m = { id := r.id, Question := r.question,
                     Options := stringsSplit r.options comma, Answer := r.answer } := by
      injection hrm with h
      exact h.symm
    rw [updateMCQ_log d2 m db2 w2 hp, hmr]
    simp only [hjoin]

/-- The round trip on a text with empty options; the row of `TestRetrieveMCQ`
read by retrieveMCQ and passed to updateMCQ; the first MCQ of the deck of
`TestParseDeck` read by parseDeck and passed to updateMCQ. -/
theorem options_reencoding_lossless_witness :
    stringsJoin (stringsSplit (str "a,,b,") comma) [comma] = str "a,,b," ∧
    (retrieveMCQ Script.foundMCQ.driver 0 1 start).1.2 = none ∧
    (updateMCQ Script.quiet.driver (retrieveMCQ Script.foundMCQ.driver 0 1 start).1.1 1
        start).2.log =
      [Call.dbPrepare 1 "update cards set question=?, answer=?, options=? where rowid = ?",
       Call.stmtExec 1 "update cards set question=?, answer=?, options=? where rowid = ?"
         [Value.text (str "What is the capital of France?"), Value.text (str "Paris"),
          Value.text (str "Paris,Berlin,London,Rome"), Value.int 0],
       Call.stmtClose 1 "update cards set question=?, answer=?, options=? where rowid = ?"] ∧
    Item.mcq { id := 0, Question := str "What is the capital of France?",
               Options := [str "Paris", str "London", str "Berlin", str "Rome"],
               Answer := str "Paris" }
      ∈ (parseDeck (Script.withRows Script.mcqRows).driver 1 MCQ start).1.1 ∧
    (∃ r ∈ Script.mcqRows,
      (updateMCQ Script.quiet.driver
          { id := 0, Question := str "What is the capital of France?",
            Options := [str "Paris", str "London", str "Berlin", str "Rome"],
            Answer := str "Paris" } 1 start).2.log =
        [Call.dbPrepare 1 "update cards set question=?, answer=?, options=? where rowid = ?",
         Call.stmtExec 1 "update cards set question=?, answer=?, options=? where rowid = ?"
           [Value.text r.question, Value.text r.answer, Value.text r.options, Value.int r.id],
         Call.stmtClose 1
           "update cards set question=?, answer=?, options=? where rowid = ?"]) := by
  have hr := options_reencoding_lossless.2.1 Unit Unit Script.foundMCQ.driver 0 1 start
    Script.quiet.driver 1 start (by decide) rfl
  have hmem :
      Item.mcq { id := 0, Question := str "What is the capital of France?",
                 Options := [str "Paris", str "London", str "Berlin", str "Rome"],
                 Answer := str "Paris" }
        ∈ (parseDeck (Script.withRows Script.mcqRows).driver 1 MCQ start).1.1 := by decide
  have hpd := options_reencoding_lossless.2.2 Unit Unit (Script.withRows Script.mcqRows).driver
    1 start Script.mcqRows Script.quiet.driver 1 start rfl (by decide) rfl _ hmem
  exact ⟨options_reencoding_lossless.1 (str "a,,b,"), by decide, hr, hmem, hpd⟩

/-! ## C11: the errors of `retrieveCard` and `retrieveMCQ` -/

/-- The error `retrieveCard` returns, by the answers to its two calls. -/
theorem retrieveCard_error {σ : Type} (d : Driver σ) (id : Int) (db : Handle) (w : World σ) :
    (retrieveCard d id db w).1.2 =
      match (w.dbPrepare d db "select * from cards where rowid=?").1 with
      | some _ => some (GoError.errorsNew (str "Error preparing statement"))
      | none =>
        match ((w.dbPrepare d db "select * from cards where rowid=?").2.stmtQueryRow d db
            "select * from cards where rowid=?" [Value.int id]).1.err with
        | some err =>
          if err = GoError.sqlErrNoRows then some (GoError.errorsNew (str "Card not found"))
          else some err
        | none => none := by
  simp only [retrieveCard]
  split
  · next e w1 h => simp [h]
  · next w1 h =>
    simp only [h]
    split
    · next err he => split <;> simp
    · next he => simp

/-- The error `retrieveMCQ` returns, by the answers to its two calls. -/
theorem retrieveMCQ_error {σ : Type} (d : Driver σ) (id : Int) (db : Handle) (w : World σ) :
    (retrieveMCQ d id db w).1.2 =
      match (w.dbPrepare d db "select * from cards where rowid=?").1 with
      | some _ => some (GoError.errorsNew (str "Error preparing statement"))
      | none =>
        match ((w.dbPrepare d db "select * from cards where rowid=?").2.stmtQueryRow d db
            "select * from cards where rowid=?" [Value.int id]).1.err with
        | some err =>
          if err = GoError.sqlErrNoRows then some (GoError.errorsNew (str "Card not found"))
          else some err
        | none => none := by
  simp only [retrieveMCQ]
  split
  · next e w1 h => simp [h]
  · next w1 h =>
    simp only [h]
    split
    · next err he => split <;> simp
    · next he => simp

/-- C11 as stated fails for a failure of statement preparation: when Prepare
fails with an engine error, retrieveCard and retrieveMCQ return the error
"Error preparing statement", not the engine's error. -/
theorem retrieve_prepare_error_replaced :
    (Script.prepareFailing.driver.dbPrepare 1 "select * from cards where rowid=?" ()).1
      = some (GoError.engine 3) ∧
    (retrieveCard Script.prepareFailing.driver 999 1 start).1.2
      = some (GoError.errorsNew (str "Error preparing statement")) ∧
    (retrieveCard Script.prepareFailing.driver 999 1 start).1.2 ≠ some (GoError.engine 3) ∧
    (retrieveMCQ Script.prepareFailing.driver 999 1 start).1.2
      = some (GoError.errorsNew (str "Error preparing statement")) ∧
    (retrieveMCQ Script.prepareFailing.driver 999 1 start).1.2 ≠ some (GoError.engine 3) := by
  decide

/-- C11 (amended): for retrieveCard and retrieveMCQ, a failure of statement
preparation is returned as the error "Error preparing statement"; once the
statement is prepared, a lookup that finds no row (sql.ErrNoRows) is returned
as the error "Card not found", and every other failure of the engine while
querying or scanning is returned as the original error value, unchanged. -/
theorem retrieve_error_mapping {σ : Type} (d : Driver σ) (id : Int) (db : Handle)
    (w : World σ) :
    (∀ e, (w.dbPrepare d db "select * from cards where rowid=?").1 = some e →
      (retrieveCard d id db w).1.2 = some (GoError.errorsNew (str "Error preparing statement")) ∧
      (retrieveMCQ d id db w).1.2 = some (GoError.errorsNew (str "Error preparing statement"))) ∧
    ((w.dbPrepare d db "select * from cards where rowid=?").1 = none →
      ((w.dbPrepare d db "select * from cards where rowid=?").2.stmtQueryRow d db
        "select * from cards where rowid=?" [Value.int id]).1.err = some GoError.sqlErrNoRows →
      (retrieveCard d id db w).1.2 = some (GoError.errorsNew (str "Card not found")) ∧
      (retrieveMCQ d id db w).1.2 = some (GoError.errorsNew (str "Card not found"))) ∧
    (∀ e, e ≠ GoError.sqlErrNoRows →
      (w.dbPrepare d db "select * from cards where rowid=?").1 = none →
      ((w.dbPrepare d db "select * from cards where rowid=?").2.stmtQueryRow d db
        "select * from cards where rowid=?" [Value.int id]).1.err = some e →
      (retrieveCard d id db w).1.2 = some e ∧ (retrieveMCQ d id db w).1.2 = some e) := by
  refine ⟨?_, ?_, ?_⟩
  · intro e hp
    rw [retrieveCard_error, retrieveMCQ_error, hp]
    exact ⟨rfl, rfl⟩
  · intro hp hrow
    rw [retrieveCard_error, retrieveMCQ_error, hp]
    simp only [hrow, if_true, and_self]
  · intro e hne hp hrow
    rw [retrieveCard_error, retrieveMCQ_error, hp]
    simp only [hrow, if_neg hne, and_self]

/-- The three cases on scripts: a failing Prepare, the missing id 999 of
`TestRetrieveCard`, and a scan that fails with an engine error. -/
theorem retrieve_error_mapping_witness :
    (retrieveCard Script.prepareFailing.driver 999 1 start).1.2
      = some (GoError.errorsNew (str "Error preparing statement")) ∧
    (retrieveMCQ Script.quiet.driver 999 1 start).1.2
      = some (GoError.errorsNew (str "Card not found")) ∧
    GoError.engine 7 ≠ GoError.sqlErrNoRows ∧
    (retrieveCard Script.brokenScan.driver 5 1 start).1.2 = some (GoError.engine 7) :=
  ⟨((retrieve_error_mapping Script.prepareFailing.driver 999 1 start).1
      (GoError.engine 3) rfl).1,
   ((retrieve_error_mapping Script.quiet.driver 999 1 start).2.1 rfl rfl).2,
   by decide,
   ((retrieve_error_mapping Script.brokenScan.driver 5 1 start).2.2
      (GoError.engine 7) (by decide) rfl rfl).1⟩

/-! ## C12: the errors of `insertCard` and `insertMCQ` -/

/-- Every error of `insertMCQ`, from `Prepare` or from `Exec`, is the error
"Error in preparing statement". -/
theorem insertMCQ_error_normalised {σ : Type} (d : Driver σ) (n : MCQItem) (db : Handle)
    (w : World σ) :
    (insertMCQ d n db w).1 = none ∨
    (insertMCQ d n db w).1 = some (GoError.errorsNew (str "Error in preparing statement")) := by
  simp only [insertMCQ]
  split
  · exact Or.inr rfl
  · split
    · exact Or.inr rfl
    · exact Or.inl rfl

/-- An error of `Exec` in `insertCard` is returned as the error "Error in
preparing statement". -/
theorem insertCard_exec_error_normalised {σ : Type} (d : Driver σ) (n : CardItem)
    (db : Handle) (w : World σ) (e : GoError)
    (hp : (w.dbPrepare d db "insert into cards (question, answer) values (?,?)").1 = none)
    (he : ((w.dbPrepare d db "insert into cards (question, answer) values (?,?)").2.stmtExec
        d db "insert into cards (question, answer) values (?,?)"
        [Value.text n.Question, Value.text n.Answer]).1 = Except.error e) :
    (insertCard d n db w).1
      = some (GoError.errorsNew (str "Error in preparing statement")) := by
  simp only [insertCard]
  split
  · next err w1 h => rw [h] at hp; simp at hp
  · next w1 h =>
    rw [h] at he
    simp only at he
    split
    · rfl
    · next r w2 h2 => rw [h2] at he; simp at he

/-- C12 fails on the code for insertCard: when preparing the insert statement
fails with error e, insertCard returns e itself, the driver's original error,
where insertMCQ returns the error "Error in preparing statement". -/
theorem insertCard_prepare_error_not_normalised {σ : Type} (d : Driver σ) (n : CardItem)
    (db : Handle) (w : World σ) (e : GoError)
    (hp : (w.dbPrepare d db "insert into cards (question, answer) values (?,?)").1 = some e) :
    (insertCard d n db w).1 = some e := by
  simp only [insertCard]
  split
  · next err w1 h =>
    rw [h] at hp
    simpa using hp
  · next w1 h => rw [h] at hp; simp at hp

/-- The card of `TestInsertCard` on a database whose Prepare fails with an
engine error: insertCard returns that error, not the generic one. -/
theorem insertCard_prepare_error_not_normalised_witness :
    (insertCard Script.prepareFailing.driver Script.parisCard 1 start).1
      = some (GoError.engine 3) ∧
    GoError.engine 3 ≠ GoError.errorsNew (str "Error in preparing statement") :=
  ⟨insertCard_prepare_error_not_normalised Script.prepareFailing.driver Script.parisCard 1
     start (GoError.engine 3) rfl,
   by decide⟩

/-! ## C13: `createDeck` for the kind `Undefined` -/

/-- C13 as stated fails: createDeck("x", Undefined) on a disk without the file
returns nil, not an error, and it has built the file name "Unknown_x.db",
which it passed to os.Stat and to sql.Open. -/
theorem createDeck_undefined_returns_nil :
    (createDeck Script.quiet.driver (str "x") Undefined start).1 = none ∧
    deckFileName (str "x") Undefined = str "Unknown_x.db" ∧
    Call.osStat (str "/home/u/.quiz/Unknown_x.db")
      ∈ (createDeck Script.quiet.driver (str "x") Undefined start).2.log ∧
    Call.sqlOpen (str "/home/u/.quiz/Unknown_x.db")
      ∈ (createDeck Script.quiet.driver (str "x") Undefined start).2.log := by
  decide

/-- The calls `createDeck` makes for the kind `Undefined`, in every case. -/
theorem createDeck_undefined_log {σ : Type} (d : Driver σ) (n : GoString) (w : World σ) :
    (createDeck d n Undefined w).2.log =
      w.log ++
        (if osIsExist (d.osStat (d.filepathJoin d.root (deckFileName n Undefined)) w.st) then
          [Call.osStat (d.filepathJoin d.root (deckFileName n Undefined))]
        else
          match (d.sqlOpen (d.filepathJoin d.root (deckFileName n Undefined)) w.st).1 with
          | Except.error err =>
            [Call.osStat (d.filepathJoin d.root (deckFileName n Undefined)),
             Call.printlnString (d.filepathJoin d.root (deckFileName n Undefined)),
             Call.sqlOpen (d.filepathJoin d.root (deckFileName n Undefined)),
             Call.printlnError err]
          | Except.ok db =>
            [Call.osStat (d.filepathJoin d.root (deckFileName n Undefined)),
             Call.printlnString (d.filepathJoin d.root (deckFileName n Undefined)),
             Call.sqlOpen (d.filepathJoin d.root (deckFileName n Undefined)),
             Call.dbClose db]) := by
  have hm : ¬ (Undefined = MCQ) := by decide
  have hc : ¬ (Undefined = Card) := by decide
  rcases ho : d.sqlOpen (d.filepathJoin d.root (deckFileName n Undefined)) w.st with ⟨r, s1⟩
  by_cases hs : osIsExist (d.osStat (d.filepathJoin d.root (deckFileName n Undefined)) w.st)
      = true
  · simp [createDeck, World.osStat, hs]
  · rcases r with err | db
    · simp [createDeck, World.osStat, World.printlnString, World.sqlOpen, World.printlnError,
        hs, ho]
    · simp [createDeck, World.osStat, World.printlnString, World.sqlOpen, World.dbClose,
        hs, ho, hm, hc]

/-- C13 (amended): createDeck does not reject the kind Undefined with an
InvalidKind error.  For every deck name n it builds the file name
"Unknown_" + n + ".db", and when os.Stat gives no already-exists error and
sql.Open returns a handle, createDeck(n, Undefined) returns nil.  It opens no
file: in every case the calls it makes are os.Stat, fmt.Println, sql.Open and
db.Close only, so no statement (no CREATE TABLE) is run on the handle and the
database file is never connected to. -/
theorem createDeck_undefined_kind_not_rejected {σ : Type} (d : Driver σ) (n : GoString)
    (w : World σ) :
    deckFileName n Undefined = str "Unknown_" ++ n ++ str ".db" ∧
    (∃ calls, (createDeck d n Undefined w).2.log = w.log ++ calls ∧
      ∀ c ∈ calls, c.connects = false) ∧
    (∀ db,
      osIsExist (d.osStat (d.filepathJoin d.root (deckFileName n Undefined)) w.st) = false →
      (d.sqlOpen (d.filepathJoin d.root (deckFileName n Undefined)) w.st).1 = Except.ok db →
      (createDeck d n Undefined w).1 = none ∧
      (createDeck d n Undefined w).2.log =
        w.log ++ [Call.osStat (d.filepathJoin d.root (deckFileName n Undefined)),
                  Call.printlnString (d.filepathJoin d.root (deckFileName n Undefined)),
                  Call.sqlOpen (d.filepathJoin d.root (deckFileName n Undefined)),
                  Call.dbClose db]) := by
  have hm : ¬ (Undefined = MCQ) := by decide
  have hc : ¬ (Undefined = Card) := by decide
  refine ⟨?_, ?_, ?_⟩
  · have hs : Undefined.String ++ str "_" = str "Unknown_" := by decide
    simp only [deckFileName, hs]
  · refine ⟨_, createDeck_undefined_log d n w, ?_⟩
    intro c hcmem
    split at hcmem
    · simp only [List.mem_singleton] at hcmem
      subst hcmem
      rfl
    · split at hcmem
      · simp only [List.mem_cons, List.mem_singleton, List.not_mem_nil, or_false] at hcmem
        rcases hcmem with rfl | rfl | rfl | rfl <;> rfl
      · simp only [List.mem_cons, List.mem_singleton, List.not_mem_nil, or_false] at hcmem
        rcases hcmem with rfl | rfl | rfl | rfl <;> rfl
  · intro db hstat hopen
    constructor
    · rcases ho : d.sqlOpen (d.filepathJoin d.root (deckFileName n Undefined)) w.st with ⟨r, s1⟩
      rw [ho] at hopen
      simp only at hopen
      subst hopen
      simp only [createDeck, World.osStat, World.printlnString, World.sqlOpen, World.dbClose,
        hstat, ho, hm, hc]
      simp
    · rw [createDeck_undefined_log, hstat, hopen]
      simp

/-- The deck "questions" of `main.go` created with kind Undefined on a disk
without the file: nil is returned and none of the four calls connects. -/
theorem createDeck_undefined_kind_not_rejected_witness :
    deckFileName (str "questions") Undefined = str "Unknown_questions.db" ∧
    (createDeck Script.quiet.driver (str "questions") Undefined start).1 = none ∧
    (createDeck Script.quiet.driver (str "questions") Undefined start).2.log =
      [Call.osStat (str "/home/u/.quiz/Unknown_questions.db"),
       Call.printlnString (str "/home/u/.quiz/Unknown_questions.db"),
       Call.sqlOpen (str "/home/u/.quiz/Unknown_questions.db"),
       Call.dbClose 1] ∧
    (∀ c ∈ (createDeck Script.quiet.driver (str "questions") Undefined start).2.log,
      c.connects = false) := by
  have h := (createDeck_undefined_kind_not_rejected Script.quiet.driver (str "questions")
    start).2.2 1 (by decide) rfl
  refine ⟨by decide, h.1, ?_, ?_⟩
  · rw [h.2]
    decide
  · rw [h.2]
    decide

end QuizDeck
